import Mathlib

/-! XComPtr.h : the reference-counted handles `Cx_Interface<IF_Type>` and `Cx_Ptr`

A shallow embedding of `code/pkg_Core/Interface/XComPtr.h`.

* A C++ object is an `ObjId`.  A pointer is an `Option ObjId` (`none` is `NULL`); the static
  interface type of a pointer is carried by the surrounding definition, exactly as a C++
  pointer value carries no type at run time.
* The run-time type information consulted by `dynamic_cast` is the table `World.implements`.
* Every `AddRef`, `Release` and `dynamic_cast` on a non-null pointer is appended to
  `World.trace`, so that "exactly once", "no AddRef" and ordering statements can be made.
  Every `dynamic_cast` expression of the source is logged, also one between equal types.
* A `Release` that brings the counter to zero destroys the component (`World.destroyed`); a
  later `AddRef`, `Release` or `dynamic_cast` on a destroyed component is undefined behaviour
  in C++ and is recorded in the sticky flag `World.touchedDestroyed`.
* A member function that mutates `*this` takes the handle and the world and returns the new
  handle and the new world.  A function in which the source dereferences a pointer without a
  guard returns an `Option`; `none` is the null dereference.
-/

namespace XComPtr

/-- Identity of a C++ object (a component instance). -/
abbrev ObjId := Nat

/-- Tag of an interface class (`IF_Type`, `IF_Type2`, `Ix_Object`, ...). -/
abbrev Iface := Nat

/-- Class identifier handed to the factory. -/
abbrev X3CLSID := Nat

/-- A raw pointer: `none` is `NULL`, `some o` points into object `o`. -/
abbrev Ptr := Option ObjId

/-- Tag of the lifecycle interface `Ix_Object`. -/
def Ix_Object : Iface := 0

/-- Calls made on objects by the handle code, in program order. -/
inductive Event where
  | addRef (o : ObjId)
  | release (o : ObjId)
  | cast (o : ObjId) (target : Iface)
  deriving DecidableEq, Repr

/-- The heap as far as the handles can observe it. -/
structure World where
  /-- Run-time type information: does object `o` have a sub-object of interface `i`. -/
  implements : ObjId → Iface → Bool
  /-- Reference counter of each object (a C `long`). -/
  refcount : ObjId → Int
  /-- Class registry of the factory: the interfaces (besides `Ix_Object`) of each known class. -/
  classes : X3CLSID → Option (List Iface)
  /-- Identity the factory gives to the next object it creates. -/
  next : ObjId
  /-- Calls made so far. -/
  trace : List Event
  /-- Components that have destroyed themselves: a `Release` brought their counter to zero. -/
  destroyed : ObjId → Bool
  /-- Has a call been made on a component after its destruction (undefined behaviour). -/
  touchedDestroyed : Bool

namespace World

/-- Modelled from the spec: `Ix_Object::AddRef` (declared in Ix_Object.h, which is not part of
the sources at hand) increments the reference counter of the component. -/
def AddRef (w : World) (o : ObjId) : World :=
  { w with
    refcount := fun x => if x = o then w.refcount o + 1 else w.refcount x
    trace := w.trace ++ [Event.addRef o]
    touchedDestroyed := w.touchedDestroyed || w.destroyed o }

/-- Modelled from the spec: `Ix_Object::Release` (declared in Ix_Object.h, which is not part of
the sources at hand) decrements the reference counter; the component destroys itself
synchronously when the counter reaches zero. -/
def Release (w : World) (o : ObjId) : World :=
  { w with
    refcount := fun x => if x = o then w.refcount o - 1 else w.refcount x
    trace := w.trace ++ [Event.release o]
    destroyed := fun x =>
      if x = o then w.destroyed o || decide (w.refcount o - 1 = 0) else w.destroyed x
    touchedDestroyed := w.touchedDestroyed || w.destroyed o }

/-- The C++ operator `dynamic_cast<target*>(p)`: null stays null, otherwise the run-time type
information of the pointee decides.  The pointee is read, so it has to be alive. -/
def dynamic_cast (w : World) (target : Iface) (p : Ptr) : Ptr × World :=
  match p with
  | none => (none, w)
  | some o =>
    (if w.implements o target then some o else none,
     { w with
       trace := w.trace ++ [Event.cast o target]
       touchedDestroyed := w.touchedDestroyed || w.destroyed o })

/-- Modelled from the spec: `x3CreateObject(clsid, ppv)` (implemented in XModuleImpl.h or
XComCreator.h, which are not part of the sources at hand).  On success the status is `0` and
`*ppv` is a fresh component whose counter is already `1`; on failure the status is non-zero,
`*ppv` is null and no reference is created.  The result is `((status, *ppv), world)`. -/
def x3CreateObject (w : World) (clsid : X3CLSID) : (Int × Ptr) × World :=
  match w.classes clsid with
  | none => ((1, none), w)
  | some ifs =>
    ((0, some w.next),
     { w with
       implements := fun o i =>
         if o = w.next then (i == Ix_Object || ifs.contains i) else w.implements o i
       refcount := fun o => if o = w.next then 1 else w.refcount o
       next := w.next + 1
       destroyed := fun o => if o = w.next then false else w.destroyed o })

/-- Calls made between the world `w0` and the later world `w`. -/
def since (w w0 : World) : List Event :=
  w.trace.drop w0.trace.length

/-- A pointer is null or denotes a component that has not been destroyed. -/
def alive (w : World) (p : Ptr) : Bool :=
  match p with
  | none => true
  | some o => !w.destroyed o

end World

/-- The class `Cx_Ptr`: one pointer to the `Ix_Object` view of a component. -/
structure Cx_Ptr where
  m_pInterface : Ptr
  deriving DecidableEq, Repr

/-- The class template `Cx_Interface<IF_Type>`: the pointer to the `IF_Type` view and the
pointer to the `Ix_Object` view. -/
structure Cx_Interface (IF_Type : Iface) where
  m_pInterface : Ptr
  m_pObj : Ptr
  deriving DecidableEq, Repr

namespace Cx_Ptr

/-- Member `Cx_Ptr::P()`. -/
def P (self : Cx_Ptr) : Ptr :=
  self.m_pInterface

end Cx_Ptr

namespace Cx_Interface

variable {IF_Type IF_Type2 : Iface}

/-- Member `P()`. -/
def P (self : Cx_Interface IF_Type) : Ptr :=
  self.m_pInterface

/-- Private member `Unload()`. -/
def Unload (self : Cx_Interface IF_Type) (w : World) : Cx_Interface IF_Type × World :=
  match self.m_pObj with
  | some o => (⟨none, none⟩, w.Release o)
  | none => (self, w)

/-- Private member `Load(IF_Type* pIF)`. -/
def Load (self : Cx_Interface IF_Type) (w : World) (pIF : Ptr) : Cx_Interface IF_Type × World :=
  let c := w.dynamic_cast Ix_Object pIF
  if self.m_pObj ≠ c.1 then
    let w1 := match c.1 with
      | some o => c.2.AddRef o
      | none => c.2
    let w2 := match self.m_pObj with
      | some o => w1.Release o
      | none => w1
    (⟨pIF, c.1⟩, w2)
  else
    (self, c.2)

/-- Private static member `copyi(Ix_Object* p, bool addref)`. -/
def copyi (w : World) (p : Ptr) (addref : Bool) : Ptr × World :=
  match p with
  | some o => if addref then (p, w.AddRef o) else (p, w)
  | none => (p, w)

/-- Constructor `Cx_Interface()`. -/
def ctor_default (IF_Type : Iface) : Cx_Interface IF_Type :=
  ⟨none, none⟩

/-- Constructor `Cx_Interface(const thisClass& src)`. -/
def ctor_copy (w : World) (src : Cx_Interface IF_Type) : Cx_Interface IF_Type × World :=
  let o := copyi w src.m_pObj true
  (⟨src.m_pInterface, o.1⟩, o.2)

/-- Constructor `Cx_Interface(IF_Type* pInterface, bool addref)`. -/
def ctor_raw (IF_Type : Iface) (w : World) (pInterface : Ptr) (addref : Bool) :
    Cx_Interface IF_Type × World :=
  let c := w.dynamic_cast Ix_Object pInterface
  let o := copyi c.2 c.1 addref
  (⟨pInterface, o.1⟩, o.2)

/-- Constructor template `Cx_Interface(const Cx_Interface<IF_Type2>& pIF)`. -/
def ctor_handle2 (IF_Type : Iface) (w : World) (pIF : Cx_Interface IF_Type2) :
    Cx_Interface IF_Type × World :=
  let i := w.dynamic_cast IF_Type pIF.P
  let c := i.2.dynamic_cast Ix_Object pIF.P
  let o := copyi c.2 c.1 true
  (⟨i.1, o.1⟩, o.2)

/-- Constructor `Cx_Interface(const X3CLSID& clsid)`. -/
def ctor_clsid (IF_Type : Iface) (w : World) (clsid : X3CLSID) :
    Option (Cx_Interface IF_Type × World) :=
  let r := w.x3CreateObject clsid
  if r.1.1 = 0 then
    let c := r.2.dynamic_cast IF_Type r.1.2
    if c.1 = none then
      match r.1.2 with
      | none => none
      | some o => some (⟨c.1, none⟩, c.2.Release o)
    else
      some (⟨c.1, r.1.2⟩, c.2)
  else
    some (⟨none, r.1.2⟩, r.2)

/-- Constructor `Cx_Interface(const Cx_Ptr& src)`. -/
def ctor_ptr (IF_Type : Iface) (w : World) (src : Cx_Ptr) : Cx_Interface IF_Type × World :=
  match src.P with
  | none => (⟨none, none⟩, w)
  | some o =>
    let i := w.dynamic_cast IF_Type src.P
    match i.1 with
    | some _ => (⟨i.1, src.P⟩, i.2.AddRef o)
    | none => (⟨i.1, none⟩, i.2)

/-- Destructor `~Cx_Interface()`. -/
def dtor (self : Cx_Interface IF_Type) (w : World) : World :=
  (self.Unload w).2

/-- Assignment template `operator=(IF_Type2* pInterface)`. -/
def assign_raw2 (self : Cx_Interface IF_Type) (w : World) (pInterface : Ptr) :
    Option (Cx_Interface IF_Type × World) :=
  let u := self.Unload w
  match pInterface with
  | none => some u
  | some _ =>
    let i := u.2.dynamic_cast IF_Type pInterface
    match i.1 with
    | none => some (⟨i.1, u.1.m_pObj⟩, i.2)
    | some _ =>
      let c := i.2.dynamic_cast Ix_Object i.1
      match c.1 with
      | none => none
      | some x => some (⟨i.1, c.1⟩, c.2.AddRef x)

/-- Assignment template `operator=(const Cx_Interface<IF_Type2>& pIF)`. -/
def assign_handle2 (self : Cx_Interface IF_Type) (w : World) (pIF : Cx_Interface IF_Type2) :
    Option (Cx_Interface IF_Type × World) :=
  self.assign_raw2 w pIF.P

/-- Assignment `operator=(const thisClass& src)`; `sameObject` is the outcome of the address
comparison `this == &src`. -/
def assign_copy (self : Cx_Interface IF_Type) (w : World) (src : Cx_Interface IF_Type)
    (sameObject : Bool) : Cx_Interface IF_Type × World :=
  if sameObject then (self, w) else self.Load w src.m_pInterface

/-- Assignment `operator=(const Cx_Ptr& src)`. -/
def assign_ptr (self : Cx_Interface IF_Type) (w : World) (src : Cx_Ptr) :
    Cx_Interface IF_Type × World :=
  let u := self.Unload w
  match src.P with
  | none => u
  | some o =>
    let i := u.2.dynamic_cast IF_Type src.P
    match i.1 with
    | some _ => (⟨i.1, src.P⟩, i.2.AddRef o)
    | none => (⟨i.1, u.1.m_pObj⟩, i.2)

/-- Assignment `operator=(const int)`, the null sentinel. -/
def assign_null (self : Cx_Interface IF_Type) (w : World) : Cx_Interface IF_Type × World :=
  self.Unload w

/-- Comparison `operator==(const int)`. -/
def eq_null (self : Cx_Interface IF_Type) : Bool :=
  self.m_pInterface == none

/-- Comparison `operator!=(const int)`. -/
def ne_null (self : Cx_Interface IF_Type) : Bool :=
  self.m_pInterface != none

/-- Comparison `operator==(const IF_Type* pInterface)`. -/
def eq_raw (self : Cx_Interface IF_Type) (pInterface : Ptr) : Bool :=
  self.m_pInterface == pInterface

/-- Comparison `operator!=(const IF_Type* pInterface)`. -/
def ne_raw (self : Cx_Interface IF_Type) (pInterface : Ptr) : Bool :=
  self.m_pInterface != pInterface

/-- Comparison `operator==(const thisClass& src)`. -/
def eq_handle (self src : Cx_Interface IF_Type) : Bool :=
  self.m_pInterface == src.m_pInterface

/-- Comparison `operator!=(const thisClass& src)`. -/
def ne_handle (self src : Cx_Interface IF_Type) : Bool :=
  self.m_pInterface != src.m_pInterface

/-- Conversion `operator bool()`. -/
def toBool (self : Cx_Interface IF_Type) : Bool :=
  self.m_pInterface != none

/-- Negation `operator!()`. -/
def not (self : Cx_Interface IF_Type) : Bool :=
  none == self.m_pInterface

/-- Member `IsNull()`. -/
def IsNull (self : Cx_Interface IF_Type) : Bool :=
  none == self.m_pInterface

/-- Member `IsNotNull()`. -/
def IsNotNull (self : Cx_Interface IF_Type) : Bool :=
  self.m_pInterface != none

/-- Member `Release()`. -/
def Release (self : Cx_Interface IF_Type) (w : World) : Cx_Interface IF_Type × World :=
  self.Unload w

/-- Member `DetachInterface()`: the returned pointer and the handle afterwards.  The source
makes no call on the component here, so the world is not involved. -/
def DetachInterface (self : Cx_Interface IF_Type) : Ptr × Cx_Interface IF_Type :=
  (self.m_pInterface, ⟨none, none⟩)

/-- Member `AttachInterface(IF_Type* pIF)`. -/
def AttachInterface (self : Cx_Interface IF_Type) (w : World) (pIF : Ptr) :
    Bool × Cx_Interface IF_Type × World :=
  let u := self.Unload w
  let c := u.2.dynamic_cast Ix_Object pIF
  (c.1 != none || none == pIF, ⟨pIF, c.1⟩, c.2)

/-- Member `AttachInterface(Ix_Object* pIF)`. -/
def AttachInterfaceObj (self : Cx_Interface IF_Type) (w : World) (pIF : Ptr) :
    Bool × Cx_Interface IF_Type × World :=
  let u := self.Unload w
  match pIF with
  | none => (true, u)
  | some o =>
    let i := u.2.dynamic_cast IF_Type pIF
    match i.1 with
    | some _ =>
      let c := i.2.dynamic_cast Ix_Object i.1
      (true, ⟨i.1, c.1⟩, c.2)
    | none => (false, ⟨i.1, u.1.m_pObj⟩, i.2.Release o)

/-- Member `Create(const X3CLSID& clsid)`. -/
def Create (self : Cx_Interface IF_Type) (w : World) (clsid : X3CLSID) :
    Option (Bool × Cx_Interface IF_Type × World) :=
  let u := self.Unload w
  let r := u.2.x3CreateObject clsid
  if r.1.1 = 0 then
    let c := r.2.dynamic_cast IF_Type r.1.2
    if c.1 = none then
      match r.1.2 with
      | none => none
      | some o => some (false, ⟨c.1, none⟩, c.2.Release o)
    else
      some (true, ⟨c.1, r.1.2⟩, c.2)
  else
    some (u.1.m_pInterface != none, ⟨u.1.m_pInterface, r.1.2⟩, r.2)

end Cx_Interface

namespace Cx_Ptr

/-- Private member `Cx_Ptr::Unload()`. -/
def Unload (self : Cx_Ptr) (w : World) : Cx_Ptr × World :=
  match self.m_pInterface with
  | some o => (⟨none⟩, w.Release o)
  | none => (self, w)

/-- Private member `Cx_Ptr::Load(Ix_Object* pIF)`. -/
def Load (self : Cx_Ptr) (w : World) (pIF : Ptr) : Cx_Ptr × World :=
  if self.m_pInterface ≠ pIF then
    let w1 := match pIF with
      | some o => w.AddRef o
      | none => w
    let w2 := match self.m_pInterface with
      | some o => w1.Release o
      | none => w1
    (⟨pIF⟩, w2)
  else
    (self, w)

/-- Constructor `Cx_Ptr()`. -/
def ctor_default : Cx_Ptr :=
  ⟨none⟩

/-- Constructor `Cx_Ptr(const Cx_Ptr& src)`. -/
def ctor_copy (w : World) (src : Cx_Ptr) : Cx_Ptr × World :=
  match src.m_pInterface with
  | some o => (⟨src.m_pInterface⟩, w.AddRef o)
  | none => (⟨src.m_pInterface⟩, w)

/-- Constructor template `Cx_Ptr(IF_Type* pInterface)`. -/
def ctor_raw (w : World) (pInterface : Ptr) : Cx_Ptr × World :=
  let c := w.dynamic_cast Ix_Object pInterface
  match c.1 with
  | some o => (⟨c.1⟩, c.2.AddRef o)
  | none => (⟨c.1⟩, c.2)

/-- Constructor template `Cx_Ptr(const Cx_Interface<IF_Type>& pIF)`. -/
def ctor_handle {IF_Type : Iface} (w : World) (pIF : Cx_Interface IF_Type) : Cx_Ptr × World :=
  let c := w.dynamic_cast Ix_Object pIF.P
  match c.1 with
  | some o => (⟨c.1⟩, c.2.AddRef o)
  | none => (⟨c.1⟩, c.2)

/-- Constructor `Cx_Ptr(const X3CLSID& clsid)`. -/
def ctor_clsid (w : World) (clsid : X3CLSID) : Cx_Ptr × World :=
  let r := w.x3CreateObject clsid
  (⟨r.1.2⟩, r.2)

/-- Destructor `~Cx_Ptr()`. -/
def dtor (self : Cx_Ptr) (w : World) : World :=
  (self.Unload w).2

/-- Assignment template `Cx_Ptr::operator=(IF_Type* pInterface)`. -/
def assign_raw (self : Cx_Ptr) (w : World) (pInterface : Ptr) : Cx_Ptr × World :=
  let u := self.Unload w
  let c := u.2.dynamic_cast Ix_Object pInterface
  match c.1 with
  | some o => (⟨c.1⟩, c.2.AddRef o)
  | none => (⟨c.1⟩, c.2)

/-- Assignment template `Cx_Ptr::operator=(const Cx_Interface<IF_Type>& pIF)`. -/
def assign_handle {IF_Type : Iface} (self : Cx_Ptr) (w : World) (pIF : Cx_Interface IF_Type) :
    Cx_Ptr × World :=
  self.assign_raw w pIF.P

/-- Assignment `Cx_Ptr::operator=(const Cx_Ptr& src)`; `sameObject` is the outcome of the
address comparison `this == &src`. -/
def assign_copy (self : Cx_Ptr) (w : World) (src : Cx_Ptr) (sameObject : Bool) :
    Cx_Ptr × World :=
  if sameObject then (self, w) else self.Load w src.m_pInterface

/-- Assignment `Cx_Ptr::operator=(const int)`, the null sentinel. -/
def assign_null (self : Cx_Ptr) (w : World) : Cx_Ptr × World :=
  self.Unload w

/-- Comparison `Cx_Ptr::operator==(const int)`. -/
def eq_null (self : Cx_Ptr) : Bool :=
  self.m_pInterface == none

/-- Comparison `Cx_Ptr::operator!=(const int)`. -/
def ne_null (self : Cx_Ptr) : Bool :=
  self.m_pInterface != none

/-- Comparison `Cx_Ptr::operator==(const Ix_Object* pInterface)`. -/
def eq_raw (self : Cx_Ptr) (pInterface : Ptr) : Bool :=
  self.m_pInterface == pInterface

/-- Comparison `Cx_Ptr::operator!=(const Ix_Object* pInterface)`. -/
def ne_raw (self : Cx_Ptr) (pInterface : Ptr) : Bool :=
  self.m_pInterface != pInterface

/-- Comparison `Cx_Ptr::operator==(const Cx_Ptr& src)`. -/
def eq_handle (self src : Cx_Ptr) : Bool :=
  self.m_pInterface == src.m_pInterface

/-- Comparison `Cx_Ptr::operator!=(const Cx_Ptr& src)`. -/
def ne_handle (self src : Cx_Ptr) : Bool :=
  self.m_pInterface != src.m_pInterface

/-- Conversion `Cx_Ptr::operator bool()`. -/
def toBool (self : Cx_Ptr) : Bool :=
  self.m_pInterface != none

/-- Negation `Cx_Ptr::operator!()`. -/
def not (self : Cx_Ptr) : Bool :=
  none == self.m_pInterface

/-- Member `Cx_Ptr::IsNull()`. -/
def IsNull (self : Cx_Ptr) : Bool :=
  none == self.m_pInterface

/-- Member `Cx_Ptr::IsNotNull()`. -/
def IsNotNull (self : Cx_Ptr) : Bool :=
  self.m_pInterface != none

/-- Member `Cx_Ptr::Release()`. -/
def Release (self : Cx_Ptr) (w : World) : Cx_Ptr × World :=
  self.Unload w

/-- Member `Cx_Ptr::DetachInterface()`: the returned pointer and the handle afterwards. -/
def DetachInterface (self : Cx_Ptr) : Ptr × Cx_Ptr :=
  (self.m_pInterface, ⟨none⟩)

/-- Member `Cx_Ptr::AttachInterface(Ix_Object* pIF)`. -/
def AttachInterface (self : Cx_Ptr) (w : World) (pIF : Ptr) : Cx_Ptr × World :=
  let u := self.Unload w
  (⟨pIF⟩, u.2)

/-- Member `Cx_Ptr::Create(const X3CLSID& clsid)`. -/
def Create (self : Cx_Ptr) (w : World) (clsid : X3CLSID) : Bool × Cx_Ptr × World :=
  let u := self.Unload w
  let r := u.2.x3CreateObject clsid
  (r.1.1 == 0, ⟨r.1.2⟩, r.2)

end Cx_Ptr

/-! ## Vocabulary of the properties -/

/-- Dual-pointer invariant of `Cx_Interface`: the capability pointer is non-null exactly when
the lifecycle pointer is non-null, and then both denote the same component. -/
def Cx_Interface.Inv {IF_Type : Iface} (h : Cx_Interface IF_Type) : Prop :=
  (h.m_pInterface.isSome ↔ h.m_pObj.isSome) ∧ (h.m_pInterface.isSome → h.m_pInterface = h.m_pObj)

instance {IF_Type : Iface} (h : Cx_Interface IF_Type) : Decidable h.Inv :=
  inferInstanceAs (Decidable (_ ∧ _))

/-- The calls `Unload()` makes for a lifecycle pointer: one `Release` when it is non-null. -/
def unloadEvents (pObj : Ptr) : List Event :=
  match pObj with
  | some o => [Event.release o]
  | none => []

/-- Number of pointers in `ps` that denote the component `o`. -/
def holders (ps : List Ptr) (o : ObjId) : Nat :=
  ps.count (some o)

/-! ## Concrete worlds used to run the code -/

/-- Interface tags of the scenario of the specification. -/
def Alpha : Iface := 1

/-- Second interface of the scenario. -/
def Beta : Iface := 2

/-- Third interface of the scenario, which component X does not have. -/
def Gamma : Iface := 3

/-- Class identifier of component X of the scenario. -/
def clsid_X : X3CLSID := 7

/-- An empty heap whose factory knows the class X with the interfaces Alpha and Beta. -/
def world0 : World where
  implements := fun _ _ => false
  refcount := fun _ => 0
  classes := fun c => if c = clsid_X then some [Alpha, Beta] else none
  next := 0
  trace := []
  destroyed := fun _ => false
  touchedDestroyed := false

/-- A heap with one object, number 0, that has the interface Alpha but is not wrapped in a
reference-counted component (it has no `Ix_Object` view), for instance an object on the stack. -/
def worldPlain : World where
  implements := fun o i => o == 0 && i == Alpha
  refcount := fun _ => 0
  classes := fun _ => none
  next := 1
  trace := []
  destroyed := fun _ => false
  touchedDestroyed := false

/-- A heap with one component, number 0, with the interfaces `Ix_Object` and Alpha, counter 1. -/
def worldX : World where
  implements := fun o i => o == 0 && (i == Ix_Object || i == Alpha)
  refcount := fun o => if o = 0 then 1 else 0
  classes := fun _ => none
  next := 1
  trace := []
  destroyed := fun _ => false
  touchedDestroyed := false

/-- A pointer is null or denotes an object that has the `Ix_Object` view. -/
def World.supportsLifecycle (w : World) (p : Ptr) : Bool :=
  match p with
  | none => true
  | some o => w.implements o Ix_Object

/-- The handle `a` of type `Cx_Interface<Alpha>` that owns the one reference to component 0 of
`worldX`. -/
def handleA : Cx_Interface Alpha :=
  ⟨some 0, some 0⟩

/-- What the scenario of the specification observes, step by step. -/
structure ScenarioLog where
  a : Cx_Interface Alpha
  count1 : Int
  b : Cx_Interface Beta
  count2 : Int
  c : Cx_Interface Gamma
  cIsNull : Bool
  count3 : Int
  countAfterA : Int
  countAfterB : Int
  deriving DecidableEq, Repr

/-- The scenario of the specification run on the code: `a(clsid_X)`, `b(a)`, `c(a)`, then
`a.Release()` and `b.Release()` while `c` is alive.  Component X is object 0. -/
def scenario : Option ScenarioLog :=
  match Cx_Interface.ctor_clsid Alpha world0 clsid_X with
  | none => none
  | some r1 =>
    let r2 := Cx_Interface.ctor_handle2 Beta r1.2 r1.1
    let r3 := Cx_Interface.ctor_handle2 Gamma r2.2 r1.1
    let r4 := r1.1.Release r3.2
    let r5 := r2.1.Release r4.2
    some ⟨r1.1, r1.2.refcount 0, r2.1, r2.2.refcount 0, r3.1, r3.1.IsNull, r3.2.refcount 0,
      r4.2.refcount 0, r5.2.refcount 0⟩

/-- What the detach sequence observes: the handles `a` and `c` at the end, the pointer returned
by `c.DetachInterface()`, and the counter of component 0 at the end. -/
structure DetachLog where
  a : Cx_Interface Alpha
  c : Cx_Interface Gamma
  returned : Ptr
  count : Int
  deriving DecidableEq, Repr

/-- The sequence `a(clsid_X)`, `c(a)`, `c.DetachInterface()` run on the code. -/
def detachSequence : Option DetachLog :=
  match Cx_Interface.ctor_clsid Alpha world0 clsid_X with
  | none => none
  | some r1 =>
    let r2 := Cx_Interface.ctor_handle2 Gamma r1.2 r1.1
    let d := r2.1.DetachInterface
    some ⟨r1.1, d.2, d.1, r2.2.refcount 0⟩

/-- A first `Cx_Interface<Gamma>` constructed from `handleA` in `worldX`: the handle `g` and the
world afterwards. -/
def halfG : Cx_Interface Gamma × World :=
  Cx_Interface.ctor_handle2 Gamma worldX handleA

/-- A second `Cx_Interface<Gamma>` constructed from `handleA` right after `halfG`: the handle
`h` and the world afterwards. -/
def halfH : Cx_Interface Gamma × World :=
  Cx_Interface.ctor_handle2 Gamma halfG.2 handleA

/-- The handle produced by `Cx_Interface<Alpha>(IF_Type*, bool)` on the object of `worldPlain`,
and the world afterwards. -/
def plainHandle : Cx_Interface Alpha × World :=
  Cx_Interface.ctor_raw Alpha worldPlain (some 0) true

/-- The calls an acquisition through `Load` makes for a capability pointer: the cast to
`Ix_Object` and the `AddRef`, when the pointer is non-null. -/
def acquireEvents (p : Ptr) : List Event :=
  match p with
  | some o => [Event.cast o Ix_Object, Event.addRef o]
  | none => []

/-- The one cast a non-null pointer undergoes, to the interface `target`. -/
def castEvents (p : Ptr) (target : Iface) : List Event :=
  match p with
  | some o => [Event.cast o target]
  | none => []

/-- The object an event is a call on. -/
def Event.obj : Event → ObjId
  | Event.addRef o => o
  | Event.release o => o
  | Event.cast o _ => o

/-- Does the list of calls contain a `Release` on `o` that is followed by a later call (cast,
`AddRef` or `Release`) on the same `o`. -/
def touchedAfterRelease (o : ObjId) : List Event → Bool
  | [] => false
  | e :: es =>
    (e == Event.release o && es.any (fun e2 => e2.obj == o)) || touchedAfterRelease o es

namespace Program

end Program

/-- A heap with one component, number 0, with the interfaces `Ix_Object`, Alpha and Beta, whose
counter is 2: two references to it are outstanding (for instance one held by a handle and one
held by the caller or by another handle).  The factory knows the class X. -/
def worldShared : World where
  implements := fun o i => o == 0 && (i == Ix_Object || i == Alpha || i == Beta)
  refcount := fun o => if o = 0 then 2 else 0
  classes := fun c => if c = clsid_X then some [Alpha, Beta] else none
  next := 1
  trace := []
  destroyed := fun _ => false
  touchedDestroyed := false

/-- A `Cx_Interface<Beta>` on component 0 of `worldShared`. -/
def handleB : Cx_Interface Beta :=
  ⟨some 0, some 0⟩

/-- The calls made on a freshly created component when the narrowing to `target` fails: the
cast and the `Release` of the one reference the factory gave. -/
def narrowFailEvents (p : Ptr) (target : Iface) : List Event :=
  match p with
  | some o => [Event.cast o target, Event.release o]
  | none => []

end XComPtr

/-! ## Basic facts about the heap operations -/

namespace XComPtr

open Cx_Interface

@[simp] theorem World.dynamic_cast_none (w : World) (t : Iface) :
    w.dynamic_cast t none = (none, w) := rfl

@[simp] theorem World.dynamic_cast_some_fst (w : World) (t : Iface) (o : ObjId) :
    (w.dynamic_cast t (some o)).1 = if w.implements o t then some o else none := rfl

@[simp] theorem World.dynamic_cast_refcount (w : World) (t : Iface) (p : Ptr) :
    (w.dynamic_cast t p).2.refcount = w.refcount := by
  cases p <;> rfl

@[simp] theorem World.dynamic_cast_classes (w : World) (t : Iface) (p : Ptr) :
    (w.dynamic_cast t p).2.classes = w.classes := by
  cases p <;> rfl

@[simp] theorem World.dynamic_cast_next (w : World) (t : Iface) (p : Ptr) :
    (w.dynamic_cast t p).2.next = w.next := by
  cases p <;> rfl

@[simp] theorem World.dynamic_cast_some_trace (w : World) (t : Iface) (o : ObjId) :
    (w.dynamic_cast t (some o)).2.trace = w.trace ++ [Event.cast o t] := rfl

@[simp] theorem World.since_append (w w0 : World) (es : List Event)
    (h : w.trace = w0.trace ++ es) : w.since w0 = es := by
  simp [World.since, h]

theorem World.dynamic_cast_lifecycle (w : World) (p : Ptr)
    (h : w.supportsLifecycle p = true) : (w.dynamic_cast Ix_Object p).1 = p := by
  cases p with
  | none => rfl
  | some o =>
    simp only [World.supportsLifecycle] at h
    simp [h]

theorem Cx_Interface.inv_iff {T : Iface} (h : Cx_Interface T) :
    h.Inv ↔ h.m_pInterface = h.m_pObj := by
  obtain ⟨i, o⟩ := h
  cases i <;> cases o <;> simp [Cx_Interface.Inv]

theorem Cx_Interface.Load_fst {T : Iface} (self : Cx_Interface T) (w : World) (pIF : Ptr) :
    (self.Load w pIF).1 =
      if self.m_pObj ≠ (w.dynamic_cast Ix_Object pIF).1 then
        ⟨pIF, (w.dynamic_cast Ix_Object pIF).1⟩
      else self := by
  simp only [Load]
  by_cases hc : self.m_pObj = (w.dynamic_cast Ix_Object pIF).1 <;> simp [hc]

/-! ## Preservation of the one-directional invariant by each public operation -/

theorem Cx_Interface.Unload_clean {T : Iface} (h : Cx_Interface T) (w : World)
    (hclean : w.touchedDestroyed = false) (hheld : w.alive h.m_pObj = true) :
    (h.Unload w).2.touchedDestroyed = false := by
  obtain ⟨hi, ho⟩ := h
  cases ho with
  | none => simpa [Unload] using hclean
  | some y =>
    have hy : w.destroyed y = false := by simpa [World.alive] using hheld
    simp [Unload, World.Release, hclean, hy]

theorem Cx_Interface.assign_raw2_clean {T : Iface} (h : Cx_Interface T) (w : World) (p : Ptr)
    (r : Cx_Interface T × World) (hclean : w.touchedDestroyed = false)
    (hheld : w.alive h.m_pObj = true) (hlive : (h.Unload w).2.alive p = true)
    (hr : h.assign_raw2 w p = some r) : r.2.touchedDestroyed = false := by
  have hu := Unload_clean h w hclean hheld
  unfold assign_raw2 at hr
  simp only at hr
  generalize h.Unload w = u at hu hlive hr
  obtain ⟨u1, u2⟩ := u
  simp only at hu hlive hr
  cases p with
  | none =>
    simp only [Option.some.injEq] at hr
    subst hr
    exact hu
  | some s =>
    have hl : u2.destroyed s = false := by simpa [World.alive] using hlive
    by_cases hc : u2.implements s T = true
    · by_cases hc2 : u2.implements s Ix_Object = true
      · simp [World.dynamic_cast, hc, hc2] at hr
        subst hr
        simp [World.AddRef, hu, hl]
      · simp [World.dynamic_cast, hc, hc2] at hr
    · simp [World.dynamic_cast, hc] at hr
      subst hr
      simp [hu, hl]

theorem Cx_Interface.assign_ptr_clean {T : Iface} (h : Cx_Interface T) (w : World)
    (src : Cx_Ptr) (hclean : w.touchedDestroyed = false)
    (hheld : w.alive h.m_pObj = true) (hlive : (h.Unload w).2.alive src.m_pInterface = true) :
    (h.assign_ptr w src).2.touchedDestroyed = false := by
  have hu := Unload_clean h w hclean hheld
  obtain ⟨si⟩ := src
  unfold assign_ptr
  simp only [Cx_Ptr.P]
  generalize h.Unload w = u at hu hlive
  obtain ⟨u1, u2⟩ := u
  simp only at hu hlive
  cases si with
  | none => exact hu
  | some s =>
    have hl : u2.destroyed s = false := by simpa [World.alive] using hlive
    by_cases hc : u2.implements s T = true
    · simp [World.dynamic_cast, hc, World.AddRef, hu, hl]
    · simp [World.dynamic_cast, hc, hu, hl]

theorem Cx_Interface.AttachInterface_clean {T : Iface} (h : Cx_Interface T) (w : World)
    (p : Ptr) (hclean : w.touchedDestroyed = false)
    (hheld : w.alive h.m_pObj = true) (hlive : (h.Unload w).2.alive p = true) :
    (h.AttachInterface w p).2.2.touchedDestroyed = false := by
  have hu := Unload_clean h w hclean hheld
  unfold AttachInterface
  simp only
  generalize h.Unload w = u at hu hlive
  obtain ⟨u1, u2⟩ := u
  simp only at hu hlive
  cases p with
  | none => exact hu
  | some s =>
    have hl : u2.destroyed s = false := by simpa [World.alive] using hlive
    simp [World.dynamic_cast, hu, hl]

theorem Cx_Interface.AttachInterfaceObj_clean {T : Iface} (h : Cx_Interface T) (w : World)
    (p : Ptr) (hclean : w.touchedDestroyed = false)
    (hheld : w.alive h.m_pObj = true) (hlive : (h.Unload w).2.alive p = true) :
    (h.AttachInterfaceObj w p).2.2.touchedDestroyed = false := by
  have hu := Unload_clean h w hclean hheld
  unfold AttachInterfaceObj
  simp only
  generalize h.Unload w = u at hu hlive
  obtain ⟨u1, u2⟩ := u
  simp only at hu hlive
  cases p with
  | none => exact hu
  | some s =>
    have hl : u2.destroyed s = false := by simpa [World.alive] using hlive
    by_cases hc : u2.implements s T = true
    · simp [World.dynamic_cast, hc, hu, hl]
    · simp [World.dynamic_cast, hc, World.Release, hu, hl]

/-! ## The claims -/

/-- C1 (the code departs from the claim): component 0 of `worldX` has the interfaces
`Ix_Object` and Alpha but not Beta, and `handleA` is a non-null `Cx_Interface<Alpha>` on it.
Constructing `Cx_Interface<Beta>` from `handleA` leaves the capability pointer null, but the
lifecycle pointer is set to the component and one `AddRef` is performed: the counter goes from
1 to 2. -/
theorem C1_cross_constructor_takes_reference :
    worldX.implements 0 Beta = false ∧
    handleA.IsNotNull = true ∧
    worldX.refcount 0 = 1 ∧
    (ctor_handle2 Beta worldX handleA).1 = ⟨none, some 0⟩ ∧
    (ctor_handle2 Beta worldX handleA).2.refcount 0 = 2 ∧
    (ctor_handle2 Beta worldX handleA).2.trace =
      [Event.cast 0 Beta, Event.cast 0 Ix_Object, Event.addRef 0] := by
  decide

/-- C2, counterexample: object 0 of `worldPlain` has the interface Alpha but no `Ix_Object`
view.  The constructor `Cx_Interface<Alpha>(IF_Type*, bool)` on a pointer to it yields a handle
whose capability pointer is non-null and whose lifecycle pointer is null, so the dual-pointer
invariant does not hold after this public operation. -/
theorem C2_invariant_broken_by_raw_constructor :
    worldPlain.implements 0 Alpha = true ∧
    (ctor_raw Alpha worldPlain (some 0) true).1 = ⟨some 0, none⟩ ∧
    ¬ (ctor_raw Alpha worldPlain (some 0) true).1.Inv := by
  decide

/-- C3 (the code departs from the claim): after `a(clsid_X)`, `c(a)` with `c` of type
`Cx_Interface<Gamma>`, and `c.DetachInterface()`, the counter of component 0 is 2, while only
one live handle (`a`) has a lifecycle pointer denoting it and the pointer returned by
`DetachInterface` is null, so the caller holds no raw reference. -/
theorem C3_detach_after_failed_narrowing_leaks :
    detachSequence = some ⟨⟨some 0, some 0⟩, ⟨none, none⟩, none, 2⟩ ∧
    detachSequence.map
        (fun l => (l.count, holders [l.a.m_pObj, l.c.m_pObj] 0 + holders [l.returned] 0)) =
      some (2, 1) := by
  decide

/-- C4: when the factory succeeds for `clsid` with a component `X` (counter 1) that does not
implement `IF_Type`, both the constructor `Cx_Interface<IF_Type>(clsid)` and `Create(clsid)`
(on a handle `h` in any state that does not already refer to the not yet created `X`) return,
leave both pointers of the handle null, leave the counter of `X` at 0, and call `Release` on
`X` exactly once; `Create` reports failure. -/
theorem C4_no_leak_on_creation_then_narrow_failure (T : Iface) (w : World) (clsid : X3CLSID)
    (X : ObjId) (h : Cx_Interface T)
    (hc : (w.x3CreateObject clsid).1 = (0, some X))
    (hT : (w.x3CreateObject clsid).2.implements X T = false)
    (hfresh : h.m_pObj ≠ some X) :
    (w.x3CreateObject clsid).2.refcount X = 1 ∧
    (∃ w1, ctor_clsid T w clsid = some (⟨none, none⟩, w1) ∧ w1.refcount X = 0 ∧
      (w1.since w).count (Event.release X) = 1) ∧
    (∃ w2, h.Create w clsid = some (false, ⟨none, none⟩, w2) ∧ w2.refcount X = 0 ∧
      (w2.since w).count (Event.release X) = 1) := by
  unfold World.x3CreateObject at hc hT
  cases hcl : w.classes clsid with
  | none => simp [hcl] at hc
  | some ifs =>
    simp only [hcl] at hc hT
    have hX : X = w.next := by
      have := congrArg (fun q => q.2) hc
      simpa using this.symm
    subst hX
    have hT2 : ¬ T = Ix_Object ∧ T ∉ ifs := by simpa using hT
    obtain ⟨hT3, hT4⟩ := hT2
    refine ⟨?_, ?_, ?_⟩
    · simp [World.x3CreateObject, hcl]
    · simp [ctor_clsid, World.x3CreateObject, hcl, hT3, hT4, World.dynamic_cast, World.Release,
        World.since]
    · cases hm : h.m_pObj with
      | none =>
        simp [Create, Unload, hm, World.x3CreateObject, hcl, hT3, hT4, World.dynamic_cast,
          World.Release, World.since]
      | some o =>
        have ho : o ≠ w.next := by
          intro e
          exact hfresh (by rw [hm, e])
        simp [Create, Unload, hm, World.x3CreateObject, hcl, hT3, hT4, World.dynamic_cast,
          World.Release, World.since, ho]

/-- C4, witness: in `world0` the factory creates component 0 for `clsid_X`, which has no Gamma;
the handle given to `Create` is a default-constructed one. -/
theorem C4_no_leak_on_creation_then_narrow_failure_witness :
    (world0.x3CreateObject clsid_X).1 = (0, some 0) ∧
    (world0.x3CreateObject clsid_X).2.implements 0 Gamma = false ∧
    (∃ w1, ctor_clsid Gamma world0 clsid_X = some (⟨none, none⟩, w1) ∧ w1.refcount 0 = 0 ∧
      (w1.since world0).count (Event.release 0) = 1) ∧
    (∃ w2, (ctor_default Gamma).Create world0 clsid_X = some (false, ⟨none, none⟩, w2) ∧
      w2.refcount 0 = 0 ∧ (w2.since world0).count (Event.release 0) = 1) :=
  ⟨by decide, by decide,
    (C4_no_leak_on_creation_then_narrow_failure Gamma world0 clsid_X 0 (ctor_default Gamma)
      (by decide) (by decide) (by decide)).2⟩

/-- C2, amended: when every pointer handed to the operation is null or denotes an object with
the `Ix_Object` view, the lifecycle pointer of the handle is null or denotes a live component,
and the component of a pointer handed to an operation that releases first (the assignments
from a raw pointer, from a handle of another type and from a `Cx_Ptr`, and both
`AttachInterface` overloads) is still alive once the prior reference is released, every public
operation of `Cx_Interface` other than the two cross-capability constructors (from
`IF_Type2*` and from `Cx_Interface<IF_Type2>`), started from handles that satisfy the
dual-pointer invariant, returns and leaves the handle with the capability pointer non-null
exactly when the lifecycle pointer is non-null, both denoting the same component; the
operations that release first touch no destroyed component, none having been touched before. -/
theorem C2_invariant_preserved (T T2 : Iface) (w : World) (h src : Cx_Interface T)
    (pIF : Cx_Interface T2) (u : Cx_Ptr) (p : Ptr) (addref sameObject : Bool) (clsid : X3CLSID)
    (hp : w.supportsLifecycle p = true)
    (hpIF : w.supportsLifecycle pIF.P = true)
    (hs : w.supportsLifecycle src.m_pInterface = true)
    (hh : h.Inv) (hsrc : src.Inv)
    (hclean : w.touchedDestroyed = false)
    (hheld : w.alive h.m_pObj = true)
    (hlp : (h.Unload w).2.alive p = true)
    (hlq : (h.Unload w).2.alive pIF.P = true)
    (hlu : (h.Unload w).2.alive u.m_pInterface = true) :
    (ctor_default T).Inv ∧
    (ctor_ptr T w u).1.Inv ∧
    (ctor_copy w src).1.Inv ∧
    (ctor_raw T w p addref).1.Inv ∧
    (∃ r, ctor_clsid T w clsid = some r ∧ r.1.Inv) ∧
    (∃ r, h.assign_raw2 w p = some r ∧ r.1.Inv ∧ r.2.touchedDestroyed = false) ∧
    (∃ r, h.assign_handle2 w pIF = some r ∧ r.1.Inv ∧ r.2.touchedDestroyed = false) ∧
    (h.assign_copy w src sameObject).1.Inv ∧
    ((h.assign_ptr w u).1.Inv ∧ (h.assign_ptr w u).2.touchedDestroyed = false) ∧
    (h.assign_null w).1.Inv ∧
    (h.Release w).1.Inv ∧
    h.DetachInterface.2.Inv ∧
    ((h.AttachInterface w p).2.1.Inv ∧
      (h.AttachInterface w p).2.2.touchedDestroyed = false) ∧
    ((h.AttachInterfaceObj w p).2.1.Inv ∧
      (h.AttachInterfaceObj w p).2.2.touchedDestroyed = false) ∧
    (∃ r, h.Create w clsid = some r ∧ r.2.1.Inv) := by
  have inv :
        (ctor_default T).Inv ∧
        (ctor_ptr T w u).1.Inv ∧
        (ctor_copy w src).1.Inv ∧
        (ctor_raw T w p addref).1.Inv ∧
        (∃ r, ctor_clsid T w clsid = some r ∧ r.1.Inv) ∧
        (∃ r, h.assign_raw2 w p = some r ∧ r.1.Inv) ∧
        (∃ r, h.assign_handle2 w pIF = some r ∧ r.1.Inv) ∧
        (h.assign_copy w src sameObject).1.Inv ∧
        (h.assign_ptr w u).1.Inv ∧
        (h.assign_null w).1.Inv ∧
        (h.Release w).1.Inv ∧
        h.DetachInterface.2.Inv ∧
        (h.AttachInterface w p).2.1.Inv ∧
        (h.AttachInterfaceObj w p).2.1.Inv ∧
        (∃ r, h.Create w clsid = some r ∧ r.2.1.Inv) := by
    clear hclean hheld hlp hlq hlu
    rw [Cx_Interface.inv_iff] at hh hsrc
    have cp := w.dynamic_cast_lifecycle p hp
    have cq := w.dynamic_cast_lifecycle pIF.P hpIF
    have cs := w.dynamic_cast_lifecycle src.m_pInterface hs
    obtain ⟨hi, ho⟩ := h
    obtain ⟨si, so⟩ := src
    obtain ⟨qi, qo⟩ := pIF
    obtain ⟨ui⟩ := u
    simp only [Cx_Interface.inv_iff, World.supportsLifecycle, Cx_Interface.P] at *
    subst hh hsrc
    refine ⟨?_, ?_, ?_, ?_, ?_, ?_, ?_, ?_, ?_, ?_, ?_, ?_, ?_, ?_, ?_⟩
    · simp [ctor_default]
    · cases ui with
      | none => simp [ctor_ptr, Cx_Ptr.P]
      | some o => by_cases hc : w.implements o T = true <;> simp [ctor_ptr, Cx_Ptr.P, hc]
    · cases si with
      | none => simp_all [ctor_copy, copyi]
      | some o => simp_all [ctor_copy, copyi]
    · cases p with
      | none => simp [ctor_raw, copyi]
      | some o => cases addref <;> simp_all [ctor_raw, copyi]
    · cases hcl : w.classes clsid with
      | none => simp [ctor_clsid, World.x3CreateObject, hcl]
      | some ifs =>
        by_cases hc : (T == Ix_Object || ifs.contains T) = true <;>
          simp_all [ctor_clsid, World.x3CreateObject, World.dynamic_cast]
    · cases hi with
      | none =>
        cases p with
        | none => simp_all [assign_raw2, Unload]
        | some o =>
          by_cases hc : w.implements o T = true <;>
            simp_all [assign_raw2, Unload, World.dynamic_cast]
      | some x =>
        cases p with
        | none => simp_all [assign_raw2, Unload]
        | some o =>
          by_cases hc : w.implements o T = true <;>
            simp_all [assign_raw2, Unload, World.dynamic_cast, World.Release]
    · cases hi with
      | none =>
        cases qi with
        | none => simp_all [assign_handle2, assign_raw2, Unload, Cx_Interface.P]
        | some o =>
          by_cases hc : w.implements o T = true <;>
            simp_all [assign_handle2, assign_raw2, Unload, World.dynamic_cast, Cx_Interface.P]
      | some x =>
        cases qi with
        | none => simp_all [assign_handle2, assign_raw2, Unload, Cx_Interface.P]
        | some o =>
          by_cases hc : w.implements o T = true <;>
            simp_all [assign_handle2, assign_raw2, Unload, World.dynamic_cast, World.Release,
              Cx_Interface.P]
    · cases sameObject with
      | true => simp [assign_copy]
      | false =>
        have hl := Cx_Interface.Load_fst (⟨hi, hi⟩ : Cx_Interface T) w si
        rw [cs] at hl
        simp only [assign_copy, Bool.false_eq_true, if_false, hl]
        split <;> rfl
    · cases hi with
      | none =>
        cases ui with
        | none => simp_all [assign_ptr, Unload, Cx_Ptr.P]
        | some o =>
          by_cases hc : w.implements o T = true <;>
            simp_all [assign_ptr, Unload, Cx_Ptr.P]
      | some x =>
        cases ui with
        | none => simp_all [assign_ptr, Unload, Cx_Ptr.P]
        | some o =>
          by_cases hc : w.implements o T = true <;>
            simp_all [assign_ptr, Unload, Cx_Ptr.P, World.Release]
    · cases hi <;> simp_all [assign_null, Unload]
    · cases hi <;> simp_all [Cx_Interface.Release, Unload]
    · simp [DetachInterface]
    · cases hi <;> cases p <;> simp_all [AttachInterface, Unload, World.Release]
    · cases hi with
      | none =>
        cases p with
        | none => simp_all [AttachInterfaceObj, Unload]
        | some o =>
          by_cases hc : w.implements o T = true <;>
            simp_all [AttachInterfaceObj, Unload, World.dynamic_cast]
      | some x =>
        cases p with
        | none => simp_all [AttachInterfaceObj, Unload]
        | some o =>
          by_cases hc : w.implements o T = true <;>
            simp_all [AttachInterfaceObj, Unload, World.dynamic_cast, World.Release]
    · cases hcl : w.classes clsid with
      | none => cases hi <;> simp_all [Create, Unload, World.x3CreateObject, World.Release]
      | some ifs =>
        by_cases hc : (T == Ix_Object || ifs.contains T) = true <;> cases hi <;>
          simp_all [Create, Unload, World.x3CreateObject, World.dynamic_cast, World.Release]
  obtain ⟨i1, i2, i3, i4, i5, ⟨r6, e6, v6⟩, ⟨r7, e7, v7⟩, i8, i9, i10, i11, i12, i13, i14, i15⟩ :=
    inv
  exact ⟨i1, i2, i3, i4, i5,
    ⟨r6, e6, v6, assign_raw2_clean h w p r6 hclean hheld hlp e6⟩,
    ⟨r7, e7, v7, assign_raw2_clean h w pIF.P r7 hclean hheld hlq e7⟩,
    i8, ⟨i9, assign_ptr_clean h w u hclean hheld hlu⟩, i10, i11, i12,
    ⟨i13, AttachInterface_clean h w p hclean hheld hlp⟩,
    ⟨i14, AttachInterfaceObj_clean h w p hclean hheld hlp⟩, i15⟩

/-- C2, witness: in `worldShared` component 0 has the interfaces Alpha and Beta and two
references to it are outstanding; the handle is `handleA`, the handle of another type is
`handleB`, and the raw pointer and the `Cx_Ptr` denote component 0. -/
theorem C2_invariant_preserved_witness :
    worldShared.supportsLifecycle (some 0) = true ∧ handleA.Inv ∧
    worldShared.touchedDestroyed = false ∧
    worldShared.alive handleA.m_pObj = true ∧
    (handleA.Unload worldShared).2.alive (some 0) = true ∧
    (ctor_default Alpha).Inv ∧
    (ctor_ptr Alpha worldShared ⟨some 0⟩).1.Inv ∧
    (ctor_copy worldShared handleA).1.Inv ∧
    (ctor_raw Alpha worldShared (some 0) true).1.Inv ∧
    (∃ r, ctor_clsid Alpha worldShared clsid_X = some r ∧ r.1.Inv) ∧
    (∃ r, handleA.assign_raw2 worldShared (some 0) = some r ∧ r.1.Inv ∧
      r.2.touchedDestroyed = false) ∧
    (∃ r, handleA.assign_handle2 worldShared handleB = some r ∧ r.1.Inv ∧
      r.2.touchedDestroyed = false) ∧
    (handleA.assign_copy worldShared handleA false).1.Inv ∧
    ((handleA.assign_ptr worldShared ⟨some 0⟩).1.Inv ∧
      (handleA.assign_ptr worldShared ⟨some 0⟩).2.touchedDestroyed = false) ∧
    (handleA.assign_null worldShared).1.Inv ∧
    (handleA.Release worldShared).1.Inv ∧
    handleA.DetachInterface.2.Inv ∧
    ((handleA.AttachInterface worldShared (some 0)).2.1.Inv ∧
      (handleA.AttachInterface worldShared (some 0)).2.2.touchedDestroyed = false) ∧
    ((handleA.AttachInterfaceObj worldShared (some 0)).2.1.Inv ∧
      (handleA.AttachInterfaceObj worldShared (some 0)).2.2.touchedDestroyed = false) ∧
    (∃ r, handleA.Create worldShared clsid_X = some r ∧ r.2.1.Inv) :=
  ⟨by decide, by decide, by decide, by decide, by decide,
    C2_invariant_preserved Alpha Beta worldShared handleA handleA handleB ⟨some 0⟩ (some 0) true
      false clsid_X (by decide) (by decide) (by decide) (by decide) (by decide) (by decide)
      (by decide) (by decide) (by decide) (by decide)⟩

/-- C5 (the code departs from the claim): `halfG` and `halfH` are two distinct
`Cx_Interface<Gamma>` handles constructed from `handleA`; their lifecycle pointers denote the
same component 0, whose counter is 3.  The copy-assignment `h = g` calls `Release` on the
component, lowers the counter to 2 and changes the lifecycle pointer of `h` to null. -/
theorem C5_assignment_between_half_null_handles_releases :
    halfG.1 = ⟨none, some 0⟩ ∧
    halfH.1 = ⟨none, some 0⟩ ∧
    halfH.1.m_pObj = halfG.1.m_pObj ∧
    halfH.2.refcount 0 = 3 ∧
    (halfH.1.assign_copy halfH.2 halfG.1 false).1 = ⟨none, none⟩ ∧
    (halfH.1.assign_copy halfH.2 halfG.1 false).2.refcount 0 = 2 ∧
    (halfH.1.assign_copy halfH.2 halfG.1 false).2.since halfH.2 = [Event.release 0] := by
  decide

/-- C6: for a typed handle `h` whose two pointers denote the component `X` (an object with the
`Ix_Object` view), `h.DetachInterface()` returns the pointer to `X` and leaves `h` with both
pointers null; `AttachInterface` of that pointer on a default-constructed handle returns true
and leaves it with the two pointers `h` had; across the pair every counter is unchanged and
the only call made is one cast.  For a `Cx_Ptr` `g` on `X` the pair `DetachInterface`,
`AttachInterface` likewise moves the pointer, with no call at all. -/
theorem C6_detach_attach_round_trip (T : Iface) (w : World) (h : Cx_Interface T) (g : Cx_Ptr)
    (X : ObjId) (hi : h.m_pInterface = some X) (ho : h.m_pObj = some X)
    (hX : w.implements X Ix_Object = true) (hg : g.m_pInterface = some X) :
    h.DetachInterface = (some X, ⟨none, none⟩) ∧
    ((ctor_default T).AttachInterface w h.DetachInterface.1).1 = true ∧
    ((ctor_default T).AttachInterface w h.DetachInterface.1).2.1 = h ∧
    ((ctor_default T).AttachInterface w h.DetachInterface.1).2.2.refcount = w.refcount ∧
    ((ctor_default T).AttachInterface w h.DetachInterface.1).2.2.since w =
      [Event.cast X Ix_Object] ∧
    g.DetachInterface = (some X, ⟨none⟩) ∧
    (Cx_Ptr.ctor_default.AttachInterface w g.DetachInterface.1).1 = g ∧
    (Cx_Ptr.ctor_default.AttachInterface w g.DetachInterface.1).2.refcount = w.refcount ∧
    (Cx_Ptr.ctor_default.AttachInterface w g.DetachInterface.1).2.since w = [] := by
  obtain ⟨hi0, ho0⟩ := h
  obtain ⟨gi⟩ := g
  simp only at hi ho hg
  subst hi ho hg
  simp [DetachInterface, AttachInterface, ctor_default, Unload, hX, World.since,
    Cx_Ptr.DetachInterface, Cx_Ptr.AttachInterface, Cx_Ptr.ctor_default, Cx_Ptr.Unload]

/-- C6, witness: `handleA` and a `Cx_Ptr` on component 0 of `worldX`. -/
theorem C6_detach_attach_round_trip_witness :
    handleA.DetachInterface = (some 0, ⟨none, none⟩) ∧
    ((ctor_default Alpha).AttachInterface worldX handleA.DetachInterface.1).1 = true ∧
    ((ctor_default Alpha).AttachInterface worldX handleA.DetachInterface.1).2.1 = handleA ∧
    ((ctor_default Alpha).AttachInterface worldX handleA.DetachInterface.1).2.2.refcount =
      worldX.refcount ∧
    ((ctor_default Alpha).AttachInterface worldX handleA.DetachInterface.1).2.2.since worldX =
      [Event.cast 0 Ix_Object] ∧
    (⟨some 0⟩ : Cx_Ptr).DetachInterface = (some 0, ⟨none⟩) ∧
    (Cx_Ptr.ctor_default.AttachInterface worldX (⟨some 0⟩ : Cx_Ptr).DetachInterface.1).1 =
      ⟨some 0⟩ ∧
    (Cx_Ptr.ctor_default.AttachInterface worldX (⟨some 0⟩ : Cx_Ptr).DetachInterface.1).2.refcount =
      worldX.refcount ∧
    (Cx_Ptr.ctor_default.AttachInterface worldX (⟨some 0⟩ : Cx_Ptr).DetachInterface.1).2.since
      worldX = [] :=
  C6_detach_attach_round_trip Alpha worldX handleA ⟨some 0⟩ 0 rfl rfl (by decide) rfl

/-- C7 (the code departs from the claim): the scenario run on the code.  `a` is non-null with
counter 1, `b` is non-null with counter 2; `c` reports `IsNull()` but its lifecycle pointer
denotes X and the counter is 3, not 2; after releasing `a` and then `b` with `c` alive the
counter is 1, not 0. -/
theorem C7_scenario_on_the_code :
    scenario =
      some ⟨⟨some 0, some 0⟩, 1, ⟨some 0, some 0⟩, 2, ⟨none, some 0⟩, true, 3, 2, 1⟩ := by
  decide

/-- C8, counterexample: object 0 of `worldPlain` has the interface Alpha and no `Ix_Object`
view (the cast of the pointer to `Ix_Object` yields null).  The handle constructed from the
pointer keeps it as capability pointer, so `IsNull()` is false. -/
theorem C8_handle_not_null_without_lifecycle :
    (worldPlain.dynamic_cast Ix_Object (some 0)).1 = none ∧
    (ctor_raw Alpha worldPlain (some 0) true).1 = ⟨some 0, none⟩ ∧
    (ctor_raw Alpha worldPlain (some 0) true).1.IsNull = false := by
  decide

/-- C8, amended: `Cx_Interface<IF_Type>(p, addref)` for a non-null `p` denoting object `o`.
If `o` has no `Ix_Object` view, the handle keeps `p` as capability pointer with a null
lifecycle pointer (`IsNull()` is false), and no counter changes and no `AddRef` is made.  If
`o` has the `Ix_Object` view, the handle is non-null, both pointers denote `o`, the counter of
`o` grows by exactly 1 when `addref` is true and by 0 when it is false, and no other counter
changes. -/
theorem C8_raw_constructor (T : Iface) (w : World) (o : ObjId) (addref : Bool) :
    (w.implements o Ix_Object = false →
      (ctor_raw T w (some o) addref).1 = ⟨some o, none⟩ ∧
      (ctor_raw T w (some o) addref).1.IsNull = false ∧
      (ctor_raw T w (some o) addref).2.refcount = w.refcount ∧
      (ctor_raw T w (some o) addref).2.since w = [Event.cast o Ix_Object]) ∧
    (w.implements o Ix_Object = true →
      (ctor_raw T w (some o) addref).1 = ⟨some o, some o⟩ ∧
      (ctor_raw T w (some o) addref).1.IsNotNull = true ∧
      (ctor_raw T w (some o) addref).2.refcount o =
        w.refcount o + (if addref = true then 1 else 0) ∧
      (∀ x, x ≠ o → (ctor_raw T w (some o) addref).2.refcount x = w.refcount x) ∧
      (ctor_raw T w (some o) addref).2.since w =
        Event.cast o Ix_Object :: (if addref = true then [Event.addRef o] else [])) := by
  constructor
  · intro hn
    simp [ctor_raw, copyi, hn, IsNull, World.since]
  · intro hy
    cases addref
    · simp [ctor_raw, copyi, hy, IsNotNull, World.since]
    · simp [ctor_raw, copyi, World.dynamic_cast, hy, IsNotNull, World.since, World.AddRef]
      intro x hx
      simp [hx]

/-- C8, witness: the object of `worldPlain` (no `Ix_Object` view) and the component of `worldX`
(with it), both with `addref` true. -/
theorem C8_raw_constructor_witness :
    worldPlain.implements 0 Ix_Object = false ∧
    (ctor_raw Alpha worldPlain (some 0) true).1.IsNull = false ∧
    worldX.implements 0 Ix_Object = true ∧
    (ctor_raw Alpha worldX (some 0) true).2.refcount 0 = worldX.refcount 0 + 1 :=
  ⟨by decide, ((C8_raw_constructor Alpha worldPlain 0 true).1 (by decide)).2.1,
    by decide, ((C8_raw_constructor Alpha worldX 0 true).2 (by decide)).2.2.1⟩

/-- C9, counterexample: `plainHandle` holds a capability pointer to object 0 of `worldPlain`
and a null lifecycle pointer.  `AttachInterface((Ix_Object*)NULL)` on it returns true and
leaves the capability pointer in place, so the handle does not end null. -/
theorem C9_attach_null_keeps_capability_pointer :
    plainHandle.1 = ⟨some 0, none⟩ ∧
    (plainHandle.1.AttachInterfaceObj plainHandle.2 none).1 = true ∧
    (plainHandle.1.AttachInterfaceObj plainHandle.2 none).2.1 = ⟨some 0, none⟩ ∧
    (plainHandle.1.AttachInterfaceObj plainHandle.2 none).2.1.IsNull = false := by
  decide

/-- C9, amended: `Cx_Interface<IF_Type>::AttachInterface(Ix_Object* p)` for every handle state
`h` whose lifecycle pointer is null or denotes a live component, and every `p` that is null or
a pointer to the `Ix_Object` view of a component `o` that is still alive once the prior
reference of `h` is released (the caller hands over a reference it holds).  The calls made are
first the one `Release` of the prior lifecycle pointer (if any) and then: for `p` to `o`
without `IF_Type`, one cast and exactly one `Release` on `o`, both pointers end null, result
false; for `p` to `o` with `IF_Type`, two casts and no `AddRef`, both pointers denote `o`, no
counter changes after the release of the prior reference, result true; for `p` null nothing
more, the lifecycle pointer ends null, the result is true, and the capability pointer ends
null too provided `h` did not hold a capability pointer without a lifecycle pointer.  No
destroyed component is touched, none having been touched before the call. -/
theorem C9_attach_lifecycle_pointer (T : Iface) (w : World) (h : Cx_Interface T) (p : Ptr)
    (hp : w.supportsLifecycle p = true)
    (hclean : w.touchedDestroyed = false)
    (hheld : w.alive h.m_pObj = true)
    (hlive : (h.Unload w).2.alive p = true) :
    ((h.Unload w).2.since w = unloadEvents h.m_pObj ∧
      (h.Unload w).2.implements = w.implements) ∧
    (∀ o, p = some o → w.implements o T = false →
      (h.AttachInterfaceObj w p).1 = false ∧
      (h.AttachInterfaceObj w p).2.1 = ⟨none, none⟩ ∧
      (h.AttachInterfaceObj w p).2.2.since w =
        unloadEvents h.m_pObj ++ [Event.cast o T, Event.release o] ∧
      (h.AttachInterfaceObj w p).2.2.refcount o = (h.Unload w).2.refcount o - 1 ∧
      (∀ x, x ≠ o →
        (h.AttachInterfaceObj w p).2.2.refcount x = (h.Unload w).2.refcount x)) ∧
    (∀ o, p = some o → w.implements o T = true →
      (h.AttachInterfaceObj w p).1 = true ∧
      (h.AttachInterfaceObj w p).2.1 = ⟨some o, some o⟩ ∧
      (h.AttachInterfaceObj w p).2.2.since w =
        unloadEvents h.m_pObj ++ [Event.cast o T, Event.cast o Ix_Object] ∧
      (h.AttachInterfaceObj w p).2.2.refcount = (h.Unload w).2.refcount) ∧
    (p = none →
      (h.AttachInterfaceObj w p).1 = true ∧
      (h.AttachInterfaceObj w p).2.1.m_pObj = none ∧
      (h.AttachInterfaceObj w p).2.2.since w = unloadEvents h.m_pObj ∧
      (h.AttachInterfaceObj w p).2.2.refcount = (h.Unload w).2.refcount ∧
      ((h.m_pObj = none → h.m_pInterface = none) →
        (h.AttachInterfaceObj w p).2.1 = ⟨none, none⟩)) ∧
    (h.AttachInterfaceObj w p).2.2.touchedDestroyed = false := by
  refine ⟨?_, ?_, ?_, ?_, AttachInterfaceObj_clean h w p hclean hheld hlive⟩
  · obtain ⟨hi, ho⟩ := h
    cases ho <;> simp [Unload, World.since, unloadEvents, World.Release]
  · intro o hpo hn
    subst hpo
    obtain ⟨hi, ho⟩ := h
    cases ho with
    | none =>
      simp [AttachInterfaceObj, Unload, World.dynamic_cast, hn, World.since, unloadEvents,
        World.Release]
      intro x hx
      simp [hx]
    | some y =>
      simp [AttachInterfaceObj, Unload, World.dynamic_cast, hn, World.since, unloadEvents,
        World.Release]
      intro x hx
      simp [hx]
  · intro o hpo hy
    subst hpo
    have ho2 : w.implements o Ix_Object = true := by simpa [World.supportsLifecycle] using hp
    obtain ⟨hi, ho⟩ := h
    cases ho with
    | none =>
      simp [AttachInterfaceObj, Unload, World.dynamic_cast, hy, ho2, World.since, unloadEvents]
    | some y =>
      simp [AttachInterfaceObj, Unload, World.dynamic_cast, hy, ho2, World.since, unloadEvents,
        World.Release]
  · intro hpn
    subst hpn
    obtain ⟨hi, ho⟩ := h
    cases ho with
    | none => simp [AttachInterfaceObj, Unload, World.since, unloadEvents]
    | some y => simp [AttachInterfaceObj, Unload, World.since, unloadEvents, World.Release]

/-- C9, witness: in `worldShared` two references to component 0 are outstanding, one held by
`handleA` and one by the caller, who attaches its lifecycle pointer; the component has the
interface Alpha. -/
theorem C9_attach_lifecycle_pointer_witness :
    worldShared.supportsLifecycle (some 0) = true ∧
    worldShared.touchedDestroyed = false ∧
    worldShared.alive handleA.m_pObj = true ∧
    (handleA.Unload worldShared).2.alive (some 0) = true ∧
    worldShared.implements 0 Alpha = true ∧
    (handleA.AttachInterfaceObj worldShared (some 0)).1 = true ∧
    (handleA.AttachInterfaceObj worldShared (some 0)).2.1 = ⟨some 0, some 0⟩ ∧
    (handleA.AttachInterfaceObj worldShared (some 0)).2.2.since worldShared =
      unloadEvents handleA.m_pObj ++ [Event.cast 0 Alpha, Event.cast 0 Ix_Object] ∧
    (handleA.AttachInterfaceObj worldShared (some 0)).2.2.refcount =
      (handleA.Unload worldShared).2.refcount ∧
    (handleA.AttachInterfaceObj worldShared (some 0)).2.2.touchedDestroyed = false := by
  have h := C9_attach_lifecycle_pointer Alpha worldShared handleA (some 0) (by decide)
    (by decide) (by decide) (by decide)
  obtain ⟨h1, h2, h3, h4⟩ := h.2.2.1 0 rfl (by decide)
  exact ⟨by decide, by decide, by decide, by decide, by decide, h1, h2, h3, h4, h.2.2.2.2⟩

/-- C10, counterexample: `plainHandle` holds a capability pointer to object 0 of `worldPlain`
and a null lifecycle pointer.  Assigning a null `Cx_Ptr` to it leaves the capability pointer in
place: the handle is non-null although the source is null. -/
theorem C10_assign_null_source_leaves_handle_non_null :
    plainHandle.1 = ⟨some 0, none⟩ ∧
    (Cx_Ptr.ctor_default).IsNull = true ∧
    (plainHandle.1.assign_ptr plainHandle.2 Cx_Ptr.ctor_default).1 = ⟨some 0, none⟩ ∧
    (plainHandle.1.assign_ptr plainHandle.2 Cx_Ptr.ctor_default).1.IsNotNull = true := by
  decide

/-- C10, amended: for every `Cx_Ptr` `src`, the constructor `Cx_Interface<IF_Type>(src)`, and the
assignment `h = src` on a handle `h` that holds no capability pointer without a lifecycle
pointer, whose lifecycle pointer is null or denotes a live component, the component of `src`
being still alive once the prior reference of `h` is released (the reference held by `src` is
counted), produce a handle that is non-null exactly when `src` is non-null and its component
implements `IF_Type`.  On success both pointers denote the component of `src`, one `AddRef` is
made and the counter of that component is one more than it was before the narrowing (for the
assignment: than it was after the release of the prior reference of `h`), other counters being
unchanged by the narrowing; on failure both pointers are null and the narrowing changes no
counter.  The assignment touches no destroyed component, none having been touched before it.
The source is passed by value and is not part of the result, so it is unchanged. -/
theorem C10_narrow_from_untyped (T : Iface) (w : World) (h : Cx_Interface T) (src : Cx_Ptr)
    (hpre : h.m_pObj = none → h.m_pInterface = none)
    (hclean : w.touchedDestroyed = false)
    (hheld : w.alive h.m_pObj = true)
    (hlive : (h.Unload w).2.alive src.m_pInterface = true) :
    (((ctor_ptr T w src).1.IsNotNull = true ↔
        ∃ o, src.m_pInterface = some o ∧ w.implements o T = true) ∧
      (∀ o, src.m_pInterface = some o → w.implements o T = true →
        (ctor_ptr T w src).1 = ⟨some o, some o⟩ ∧
        (ctor_ptr T w src).2.refcount o = w.refcount o + 1 ∧
        (∀ x, x ≠ o → (ctor_ptr T w src).2.refcount x = w.refcount x) ∧
        (ctor_ptr T w src).2.since w = [Event.cast o T, Event.addRef o]) ∧
      ((ctor_ptr T w src).1.IsNotNull = false →
        (ctor_ptr T w src).1 = ⟨none, none⟩ ∧
        (ctor_ptr T w src).2.refcount = w.refcount ∧
        (ctor_ptr T w src).2.since w = castEvents src.m_pInterface T)) ∧
    (((h.assign_ptr w src).1.IsNotNull = true ↔
        ∃ o, src.m_pInterface = some o ∧ w.implements o T = true) ∧
      (∀ o, src.m_pInterface = some o → w.implements o T = true →
        (h.assign_ptr w src).1 = ⟨some o, some o⟩ ∧
        (h.assign_ptr w src).2.refcount o = (h.Unload w).2.refcount o + 1 ∧
        (∀ x, x ≠ o → (h.assign_ptr w src).2.refcount x = (h.Unload w).2.refcount x) ∧
        (h.assign_ptr w src).2.since w =
          unloadEvents h.m_pObj ++ [Event.cast o T, Event.addRef o]) ∧
      ((h.assign_ptr w src).1.IsNotNull = false →
        (h.assign_ptr w src).1 = ⟨none, none⟩ ∧
        (h.assign_ptr w src).2.refcount = (h.Unload w).2.refcount ∧
        (h.assign_ptr w src).2.since w =
          unloadEvents h.m_pObj ++ castEvents src.m_pInterface T)) ∧
    (h.assign_ptr w src).2.touchedDestroyed = false := by
  refine ⟨?_, ?_, assign_ptr_clean h w src hclean hheld hlive⟩
  · obtain ⟨si⟩ := src
    cases si with
    | none => simp [ctor_ptr, Cx_Ptr.P, IsNotNull, castEvents, World.since]
    | some s =>
      by_cases hc : w.implements s T = true
      · simp [ctor_ptr, Cx_Ptr.P, IsNotNull, hc, World.AddRef, World.since]
        intro x hx
        simp [hx]
      · simp [ctor_ptr, Cx_Ptr.P, IsNotNull, hc, castEvents, World.since]
  · obtain ⟨hi, ho⟩ := h
    obtain ⟨si⟩ := src
    simp only at hpre
    cases ho with
    | none =>
      have hi0 : hi = none := hpre rfl
      subst hi0
      cases si with
      | none =>
        simp [assign_ptr, Unload, Cx_Ptr.P, IsNotNull, castEvents, unloadEvents, World.since]
      | some s =>
        by_cases hc : w.implements s T = true
        · simp [assign_ptr, Unload, Cx_Ptr.P, IsNotNull, hc, World.AddRef, World.since,
            unloadEvents]
          intro x hx
          simp [hx]
        · simp [assign_ptr, Unload, Cx_Ptr.P, IsNotNull, hc, castEvents, unloadEvents,
            World.since]
    | some y =>
      cases si with
      | none =>
        simp [assign_ptr, Unload, Cx_Ptr.P, IsNotNull, castEvents, unloadEvents, World.since,
          World.Release]
      | some s =>
        by_cases hc : w.implements s T = true
        · simp [assign_ptr, Unload, Cx_Ptr.P, IsNotNull, hc, World.AddRef, World.since,
            unloadEvents, World.Release]
          intro x hx
          simp [hx]
        · simp [assign_ptr, Unload, Cx_Ptr.P, IsNotNull, hc, World.Release, castEvents,
            unloadEvents, World.since]

/-- C10, witness: in `worldShared` two references to component 0 are outstanding, one held by
`handleA` and one by a `Cx_Ptr`, which is assigned to `handleA` and used to construct a
handle; the component has the interface Alpha. -/
theorem C10_narrow_from_untyped_witness :
    (handleA.m_pObj = none → handleA.m_pInterface = none) ∧
    worldShared.touchedDestroyed = false ∧
    worldShared.alive handleA.m_pObj = true ∧
    (handleA.Unload worldShared).2.alive (⟨some 0⟩ : Cx_Ptr).m_pInterface = true ∧
    ((handleA.assign_ptr worldShared ⟨some 0⟩).1.IsNotNull = true ↔
      ∃ o, (⟨some 0⟩ : Cx_Ptr).m_pInterface = some o ∧ worldShared.implements o Alpha = true) ∧
    (handleA.assign_ptr worldShared ⟨some 0⟩).1 = ⟨some 0, some 0⟩ ∧
    (handleA.assign_ptr worldShared ⟨some 0⟩).2.refcount 0 =
      (handleA.Unload worldShared).2.refcount 0 + 1 ∧
    (handleA.assign_ptr worldShared ⟨some 0⟩).2.touchedDestroyed = false ∧
    (ctor_ptr Alpha worldShared ⟨some 0⟩).1 = ⟨some 0, some 0⟩ ∧
    (ctor_ptr Alpha worldShared ⟨some 0⟩).2.refcount 0 = worldShared.refcount 0 + 1 := by
  have h := C10_narrow_from_untyped Alpha worldShared handleA ⟨some 0⟩ (by decide) (by decide)
    (by decide) (by decide)
  obtain ⟨c1, c2, _, _⟩ := h.1.2.1 0 rfl (by decide)
  obtain ⟨a1, a2, _, _⟩ := h.2.1.2.1 0 rfl (by decide)
  exact ⟨by decide, by decide, by decide, by decide, h.2.1.1, a1, a2, h.2.2, c1, c2⟩

/-- C11, counterexample: `plainHandle` holds a capability pointer to object 0 of `worldPlain`
(no `Ix_Object` view) and a null lifecycle pointer.  Copy-assigning it to a distinct,
default-constructed handle changes nothing: the destination stays null and does not compare
equal to the source. -/
theorem C11_copy_assignment_does_not_copy_plain_pointer :
    plainHandle.1 = ⟨some 0, none⟩ ∧
    ((ctor_default Alpha).assign_copy plainHandle.2 plainHandle.1 false).1 = ⟨none, none⟩ ∧
    ((ctor_default Alpha).assign_copy plainHandle.2 plainHandle.1 false).1.eq_handle
      plainHandle.1 = false := by
  decide

/-- C11, amended: for distinct handles `dst` and `src` of the same type that both satisfy the
dual-pointer invariant, the component of `src` having the `Ix_Object` view, after `dst = src`
the destination has the two pointers of the source (so it compares equal to it).  When the
lifecycle pointers differed beforehand, the calls made are the cast and the `AddRef` on the
component of `src` (if any) followed by the `Release` on the former component of `dst` (if
any); with two different components, the first gains exactly one reference, the second loses
exactly one and no other counter changes. -/
theorem C11_copy_assignment_shares_source (T : Iface) (w : World) (dst src : Cx_Interface T)
    (hd : dst.Inv) (hs : src.Inv) (hl : w.supportsLifecycle src.m_pInterface = true) :
    (dst.assign_copy w src false).1 = src ∧
    (dst.assign_copy w src false).1.eq_handle src = true ∧
    (dst.m_pObj ≠ src.m_pObj →
      (dst.assign_copy w src false).2.since w =
        acquireEvents src.m_pInterface ++ unloadEvents dst.m_pObj) ∧
    (∀ X Y, src.m_pObj = some X → dst.m_pObj = some Y → X ≠ Y →
      (dst.assign_copy w src false).2.since w =
        [Event.cast X Ix_Object, Event.addRef X, Event.release Y] ∧
      (dst.assign_copy w src false).2.refcount X = w.refcount X + 1 ∧
      (dst.assign_copy w src false).2.refcount Y = w.refcount Y - 1 ∧
      (∀ z, z ≠ X → z ≠ Y → (dst.assign_copy w src false).2.refcount z = w.refcount z)) := by
  rw [Cx_Interface.inv_iff] at hd hs
  obtain ⟨di, d⟩ := dst
  obtain ⟨si, s⟩ := src
  simp only at hd hs hl
  subst hd hs
  cases si with
  | none =>
    cases di with
    | none => simp [assign_copy, Load, eq_handle]
    | some y =>
      simp [assign_copy, Load, eq_handle, acquireEvents, unloadEvents, World.Release,
        World.since]
  | some x =>
    have hx : w.implements x Ix_Object = true := by simpa [World.supportsLifecycle] using hl
    cases di with
    | none =>
      simp [assign_copy, Load, eq_handle, acquireEvents, unloadEvents, World.AddRef,
        World.since, hx]
    | some y =>
      by_cases hxy : y = x
      · subst hxy
        simp [assign_copy, Load, eq_handle, hx]
      · have hxy2 : x ≠ y := fun e => hxy e.symm
        simp [assign_copy, Load, eq_handle, acquireEvents, unloadEvents, World.AddRef,
          World.Release, World.since, hx, hxy, hxy2]
        intro z hz1 hz2
        simp [hz1, hz2]

/-- C11, witness: in `worldX`, a default-constructed destination and the source `handleA`. -/
theorem C11_copy_assignment_shares_source_witness :
    (ctor_default Alpha).Inv ∧ handleA.Inv ∧
    worldX.supportsLifecycle handleA.m_pInterface = true ∧
    ((ctor_default Alpha).assign_copy worldX handleA false).1 = handleA ∧
    ((ctor_default Alpha).assign_copy worldX handleA false).1.eq_handle handleA = true :=
  ⟨by decide, by decide, by decide,
    (C11_copy_assignment_shares_source Alpha worldX (ctor_default Alpha) handleA (by decide)
      (by decide) (by decide)).1,
    (C11_copy_assignment_shares_source Alpha worldX (ctor_default Alpha) handleA (by decide)
      (by decide) (by decide)).2.1⟩

/-- C12, counterexample: `plainHandle` holds a capability pointer to object 0 of `worldPlain`
and a null lifecycle pointer.  Assigning a null pointer of another interface type returns and
leaves the capability pointer in place: the handle is non-null although the pointer is null. -/
theorem C12_assign_null_pointer_leaves_handle_non_null :
    plainHandle.1 = ⟨some 0, none⟩ ∧
    (plainHandle.1.assign_raw2 plainHandle.2 none).map (fun r => r.1) = some ⟨some 0, none⟩ ∧
    (plainHandle.1.assign_raw2 plainHandle.2 none).map (fun r => r.1.IsNotNull) = some true := by
  decide

/-- C12, amended: assignment to a `Cx_Interface<IF_Type>` handle `h` that holds no capability
pointer without a lifecycle pointer and whose lifecycle pointer is null or denotes a live
component, from a raw pointer `p` of another interface type `IF_Type2` that is null or denotes
a component (an object with the `Ix_Object` view) that is still alive once the prior reference
of `h` is released, or from a `Cx_Interface<IF_Type2>` `g` holding `p`.  The assignment
returns; the first call made is the one `Release` of the prior lifecycle pointer (if any);
afterwards the handle is non-null exactly when `p` is non-null and its component implements
`IF_Type`.  On success both pointers denote the component of `p`, exactly one `AddRef` is made
and its counter is one more than after the release of the prior reference; on failure both
pointers are null, no `AddRef` is made and no counter changes after that release.  No destroyed
component is touched, none having been touched before the assignment. -/
theorem C12_assign_from_other_interface (T T2 : Iface) (w : World) (h : Cx_Interface T)
    (g : Cx_Interface T2) (p : Ptr)
    (hT : T2 ≠ T)
    (hpre : h.m_pObj = none → h.m_pInterface = none)
    (hp : w.supportsLifecycle p = true) (hg : g.P = p)
    (hclean : w.touchedDestroyed = false)
    (hheld : w.alive h.m_pObj = true)
    (hlive : (h.Unload w).2.alive p = true) :
    h.assign_handle2 w g = h.assign_raw2 w p ∧
    ∃ r, h.assign_raw2 w p = some r ∧
      (r.1.IsNotNull = true ↔ ∃ o, p = some o ∧ w.implements o T = true) ∧
      (∀ o, p = some o → w.implements o T = true →
        r.1 = ⟨some o, some o⟩ ∧
        r.2.refcount o = (h.Unload w).2.refcount o + 1 ∧
        (∀ x, x ≠ o → r.2.refcount x = (h.Unload w).2.refcount x) ∧
        r.2.since w =
          unloadEvents h.m_pObj ++ [Event.cast o T, Event.cast o Ix_Object, Event.addRef o]) ∧
      (r.1.IsNotNull = false →
        r.1 = ⟨none, none⟩ ∧
        r.2.refcount = (h.Unload w).2.refcount ∧
        r.2.since w = unloadEvents h.m_pObj ++ castEvents p T) ∧
      r.2.touchedDestroyed = false := by
  have _hT := hT
  have hcl := fun r => assign_raw2_clean h w p r hclean hheld hlive
  obtain ⟨hi, ho⟩ := h
  simp only at hpre
  refine ⟨by simp [assign_handle2, hg], ?_⟩
  cases ho with
  | none =>
    have hi0 : hi = none := hpre rfl
    subst hi0
    cases p with
    | none =>
      have hc0 := hcl ((⟨none, none⟩ : Cx_Interface T), w) (by simp [assign_raw2, Unload])
      simp [assign_raw2, Unload, IsNotNull, unloadEvents, castEvents, World.since, hclean]
    | some s =>
      have hs : w.implements s Ix_Object = true := by simpa [World.supportsLifecycle] using hp
      by_cases hc : w.implements s T = true
      · have hr : ∃ r, (⟨none, none⟩ : Cx_Interface T).assign_raw2 w (some s) = some r := by
          simp [assign_raw2, Unload, hc, hs, World.dynamic_cast]
        obtain ⟨r, hr⟩ := hr
        refine ⟨r, hr, ?_, ?_, ?_, hcl r hr⟩ <;>
          simp [assign_raw2, Unload, hc, hs, World.dynamic_cast] at hr <;> subst hr
        · simp [IsNotNull, hc]
        · simp [hc, World.AddRef, World.since, unloadEvents, Unload]
          intro x hx
          simp [hx]
        · simp [IsNotNull]
      · have hr : ∃ r, (⟨none, none⟩ : Cx_Interface T).assign_raw2 w (some s) = some r := by
          simp [assign_raw2, Unload, hc, World.dynamic_cast]
        obtain ⟨r, hr⟩ := hr
        refine ⟨r, hr, ?_, ?_, ?_, hcl r hr⟩ <;>
          simp [assign_raw2, Unload, hc, World.dynamic_cast] at hr <;> subst hr
        · simp [IsNotNull, hc]
        · simp [hc]
        · simp [IsNotNull, World.since, unloadEvents, castEvents, Unload]
  | some y =>
    cases p with
    | none =>
      have hr : ∃ r, (⟨hi, some y⟩ : Cx_Interface T).assign_raw2 w none = some r := by
        simp [assign_raw2, Unload]
      obtain ⟨r, hr⟩ := hr
      refine ⟨r, hr, ?_, ?_, ?_, hcl r hr⟩ <;>
        simp [assign_raw2, Unload] at hr <;> subst hr
      · simp [IsNotNull]
      · simp
      · simp [IsNotNull, World.since, unloadEvents, castEvents, Unload, World.Release]
    | some s =>
      have hs : w.implements s Ix_Object = true := by simpa [World.supportsLifecycle] using hp
      by_cases hc : w.implements s T = true
      · have hr : ∃ r, (⟨hi, some y⟩ : Cx_Interface T).assign_raw2 w (some s) = some r := by
          simp [assign_raw2, Unload, hc, hs, World.dynamic_cast, World.Release]
        obtain ⟨r, hr⟩ := hr
        refine ⟨r, hr, ?_, ?_, ?_, hcl r hr⟩ <;>
          simp [assign_raw2, Unload, hc, hs, World.dynamic_cast, World.Release] at hr <;>
          subst hr
        · simp [IsNotNull, hc]
        · simp [hc, World.AddRef, World.since, unloadEvents, Unload, World.Release]
          intro x hx
          simp [hx]
        · simp [IsNotNull]
      · have hr : ∃ r, (⟨hi, some y⟩ : Cx_Interface T).assign_raw2 w (some s) = some r := by
          simp [assign_raw2, Unload, hc, World.dynamic_cast, World.Release]
        obtain ⟨r, hr⟩ := hr
        refine ⟨r, hr, ?_, ?_, ?_, hcl r hr⟩ <;>
          simp [assign_raw2, Unload, hc, World.dynamic_cast, World.Release] at hr <;> subst hr
        · simp [IsNotNull, hc]
        · simp [hc]
        · simp [IsNotNull, World.since, unloadEvents, castEvents, Unload, World.Release]

/-- C12, witness: in `worldShared` the component 0 has the interfaces Alpha and Beta and two
references to it are outstanding, held by `handleA` (a `Cx_Interface<Alpha>`) and `handleB` (a
`Cx_Interface<Beta>`); `handleB` is assigned to `handleA`. -/
theorem C12_assign_from_other_interface_witness :
    Beta ≠ Alpha ∧
    (handleA.m_pObj = none → handleA.m_pInterface = none) ∧
    worldShared.supportsLifecycle (some 0) = true ∧ handleB.P = some 0 ∧
    worldShared.touchedDestroyed = false ∧
    worldShared.alive handleA.m_pObj = true ∧
    (handleA.Unload worldShared).2.alive (some 0) = true ∧
    handleA.assign_handle2 worldShared handleB = handleA.assign_raw2 worldShared (some 0) ∧
    ∃ r, handleA.assign_raw2 worldShared (some 0) = some r ∧
      (r.1.IsNotNull = true ↔ ∃ o, some 0 = some o ∧ worldShared.implements o Alpha = true) ∧
      (∀ o, some 0 = some o → worldShared.implements o Alpha = true →
        r.1 = ⟨some o, some o⟩ ∧
        r.2.refcount o = (handleA.Unload worldShared).2.refcount o + 1 ∧
        (∀ x, x ≠ o → r.2.refcount x = (handleA.Unload worldShared).2.refcount x) ∧
        r.2.since worldShared =
          unloadEvents handleA.m_pObj ++
            [Event.cast o Alpha, Event.cast o Ix_Object, Event.addRef o]) ∧
      (r.1.IsNotNull = false →
        r.1 = ⟨none, none⟩ ∧
        r.2.refcount = (handleA.Unload worldShared).2.refcount ∧
        r.2.since worldShared = unloadEvents handleA.m_pObj ++ castEvents (some 0) Alpha) ∧
      r.2.touchedDestroyed = false :=
  ⟨by decide, by decide, by decide, by decide, by decide, by decide, by decide,
    C12_assign_from_other_interface Alpha Beta worldShared handleA handleB (some 0) (by decide)
      (by decide) (by decide) (by decide) (by decide) (by decide) (by decide)⟩

/-- C13, counterexample: `plainHandle` holds a capability pointer to object 0 of `worldPlain`
and a null lifecycle pointer.  Assigning the null sentinel makes no call and leaves the
capability pointer in place: `IsNull()` is false afterwards. -/
theorem C13_clear_keeps_plain_pointer :
    plainHandle.1 = ⟨some 0, none⟩ ∧
    (plainHandle.1.assign_null plainHandle.2).1 = ⟨some 0, none⟩ ∧
    (plainHandle.1.assign_null plainHandle.2).1.IsNull = false ∧
    (plainHandle.1.Release plainHandle.2).1.IsNull = false := by
  decide

/-- C13, amended: for every state of a `Cx_Interface` handle `H` and of a `Cx_Ptr` handle `G`,
assigning the null sentinel, calling `Release()` and destroying the handle make the same
calls: `Release` on the held component exactly once when the lifecycle pointer is non-null and
no call otherwise.  Afterwards the lifecycle pointer is null; `G` is null; `H` is null
(`IsNull()` true, both pointers null) unless it held a capability pointer without a lifecycle
pointer, in which case it is left as it was.  When the held component had counter 1 the
counter is 0 afterwards, and a second clear of the same handle makes no call. -/
theorem C13_clearing_a_handle (T : Iface) (w : World) (H : Cx_Interface T) (G : Cx_Ptr) :
    (H.assign_null w = H.Unload w ∧ H.Release w = H.Unload w ∧ H.dtor w = (H.Unload w).2) ∧
    (H.Unload w).2.since w = unloadEvents H.m_pObj ∧
    (H.Unload w).1.m_pObj = none ∧
    ((H.m_pObj ≠ none ∨ H.m_pInterface = none) →
      (H.Unload w).1 = ⟨none, none⟩ ∧ (H.Unload w).1.IsNull = true) ∧
    (H.m_pObj = none → (H.Unload w).1 = H) ∧
    (∀ X, H.m_pObj = some X → w.refcount X = 1 → (H.Unload w).2.refcount X = 0) ∧
    ((H.Unload w).1.Unload (H.Unload w).2).2.since (H.Unload w).2 = [] ∧
    (G.assign_null w = G.Unload w ∧ G.Release w = G.Unload w ∧ G.dtor w = (G.Unload w).2) ∧
    (G.Unload w).2.since w = unloadEvents G.m_pInterface ∧
    (G.Unload w).1 = ⟨none⟩ ∧ (G.Unload w).1.IsNull = true ∧
    (∀ X, G.m_pInterface = some X → w.refcount X = 1 → (G.Unload w).2.refcount X = 0) ∧
    ((G.Unload w).1.Unload (G.Unload w).2).2.since (G.Unload w).2 = [] := by
  obtain ⟨hi, ho⟩ := H
  obtain ⟨gi⟩ := G
  cases ho <;> cases gi <;>
    simp [assign_null, Cx_Interface.Release, dtor, Unload, IsNull, unloadEvents, World.since,
      World.Release, Cx_Ptr.assign_null, Cx_Ptr.Release, Cx_Ptr.dtor, Cx_Ptr.Unload,
      Cx_Ptr.IsNull]
  all_goals
    first
    | (intro hx; simp [hx])
    | (constructor <;> intro hx <;> simp [hx])

/-- C13, witness: `handleA` and a `Cx_Ptr` on component 0 of `worldX`, whose counter is 1. -/
theorem C13_clearing_a_handle_witness :
    (handleA.m_pObj ≠ none ∨ handleA.m_pInterface = none) ∧
    (handleA.Unload worldX).1 = ⟨none, none⟩ ∧ (handleA.Unload worldX).1.IsNull = true ∧
    handleA.m_pObj = some 0 ∧ worldX.refcount 0 = 1 ∧
    (handleA.Unload worldX).2.refcount 0 = 0 :=
  ⟨by decide,
    ((C13_clearing_a_handle Alpha worldX handleA ⟨some 0⟩).2.2.2.1 (by decide)).1,
    ((C13_clearing_a_handle Alpha worldX handleA ⟨some 0⟩).2.2.2.1 (by decide)).2,
    rfl, by decide,
    (C13_clearing_a_handle Alpha worldX handleA ⟨some 0⟩).2.2.2.2.2.1 0 rfl (by decide)⟩

/-- C14, counterexample: `plainHandle` holds a capability pointer to object 0 of `worldPlain`
and a null lifecycle pointer, and the factory of `worldPlain` knows no class.  `Create` fails
at the factory, yet it returns true, because the capability pointer was left in place. -/
theorem C14_create_reports_success_after_factory_failure :
    plainHandle.1 = ⟨some 0, none⟩ ∧
    (plainHandle.2.x3CreateObject clsid_X).1 = (1, none) ∧
    (plainHandle.1.Create plainHandle.2 clsid_X).map (fun r => (r.1, r.2.1)) =
      some (true, ⟨some 0, none⟩) := by
  decide

/-- C14, amended: `Cx_Interface<IF_Type>::Create(clsid)` on a handle `h` that holds no
capability pointer without a lifecycle pointer, for every outcome of the factory.  `Create`
returns; the first call made is the one `Release` of the prior lifecycle pointer (if any), and
the prior component is released exactly once; the result is true exactly when the factory
succeeded and the created component implements `IF_Type`; the result is true exactly when the
handle is non-null afterwards; on true both pointers denote the created component, whose
counter is exactly 1, the only further call is the cast, and no `AddRef` is made; on false
both pointers are null and the only further calls are, when the factory succeeded, the cast
and the one `Release` of the created component. -/
theorem C14_create (T : Iface) (w : World) (h : Cx_Interface T) (clsid : X3CLSID)
    (hpre : h.m_pObj = none → h.m_pInterface = none) :
    ∃ r, h.Create w clsid = some r ∧
      (r.1 = true ↔
        ∃ X, (w.x3CreateObject clsid).1 = (0, some X) ∧
          (w.x3CreateObject clsid).2.implements X T = true) ∧
      r.1 = r.2.1.IsNotNull ∧
      (r.1 = true →
        r.2.1 = ⟨some w.next, some w.next⟩ ∧
        r.2.2.refcount w.next = 1 ∧
        r.2.2.since w = unloadEvents h.m_pObj ++ [Event.cast w.next T]) ∧
      (r.1 = false →
        r.2.1 = ⟨none, none⟩ ∧
        r.2.2.since w =
          unloadEvents h.m_pObj ++ narrowFailEvents (w.x3CreateObject clsid).1.2 T) ∧
      (∀ Y, h.m_pObj = some Y → Y ≠ w.next →
        (r.2.2.since w).count (Event.release Y) = 1) ∧
      (∀ o, Event.addRef o ∉ r.2.2.since w) := by
  obtain ⟨hi, ho⟩ := h
  simp only at hpre
  cases hcl : w.classes clsid with
  | none =>
    cases ho with
    | none =>
      have hi0 : hi = none := hpre rfl
      subst hi0
      simp [Create, Unload, World.x3CreateObject, hcl, IsNotNull, unloadEvents, World.since,
        narrowFailEvents]
    | some y =>
      simp [Create, Unload, World.x3CreateObject, hcl, IsNotNull, unloadEvents, World.since,
        World.Release, narrowFailEvents]
  | some ifs =>
    by_cases hc : (T == Ix_Object || ifs.contains T) = true
    · have hc2 : T = Ix_Object ∨ T ∈ ifs := by simpa using hc
      cases ho with
      | none =>
        simp [Create, Unload, World.x3CreateObject, hcl, hc2, IsNotNull, unloadEvents,
          World.since, World.dynamic_cast]
      | some y =>
        simp [Create, Unload, World.x3CreateObject, hcl, hc2, IsNotNull, unloadEvents,
          World.since, World.dynamic_cast, World.Release]
    · have hc2 : ¬ T = Ix_Object ∧ T ∉ ifs := by simpa using hc
      obtain ⟨hc3, hc4⟩ := hc2
      cases ho with
      | none =>
        simp [Create, Unload, World.x3CreateObject, hcl, hc3, hc4, IsNotNull, unloadEvents,
          World.since, World.dynamic_cast, World.Release, narrowFailEvents]
      | some y =>
        simp [Create, Unload, World.x3CreateObject, hcl, hc3, hc4, IsNotNull, unloadEvents,
          World.since, World.dynamic_cast, World.Release, narrowFailEvents]
        intro hy
        simp [List.count_cons, hy]

/-- C14, witness: `Create(clsid_X)` on `handleA` in `worldShared`, whose factory makes
component 1 with the interfaces Alpha and Beta; the prior reference to component 0 is
released once. -/
theorem C14_create_witness :
    (handleA.m_pObj = none → handleA.m_pInterface = none) ∧
    ∃ r, handleA.Create worldShared clsid_X = some r ∧
      (r.1 = true ↔
        ∃ X, (worldShared.x3CreateObject clsid_X).1 = (0, some X) ∧
          (worldShared.x3CreateObject clsid_X).2.implements X Alpha = true) ∧
      r.1 = r.2.1.IsNotNull ∧
      (r.1 = true →
        r.2.1 = ⟨some worldShared.next, some worldShared.next⟩ ∧
        r.2.2.refcount worldShared.next = 1 ∧
        r.2.2.since worldShared =
          unloadEvents handleA.m_pObj ++ [Event.cast worldShared.next Alpha]) ∧
      (r.1 = false →
        r.2.1 = ⟨none, none⟩ ∧
        r.2.2.since worldShared =
          unloadEvents handleA.m_pObj ++
            narrowFailEvents (worldShared.x3CreateObject clsid_X).1.2 Alpha) ∧
      (∀ Y, handleA.m_pObj = some Y → Y ≠ worldShared.next →
        (r.2.2.since worldShared).count (Event.release Y) = 1) ∧
      (∀ o, Event.addRef o ∉ r.2.2.since worldShared) :=
  ⟨by decide, C14_create Alpha worldShared handleA clsid_X (by decide)⟩

/-- C16, counterexample: `handleA` holds the only reference to component 0 of `worldX` (counter
1), which has the `Ix_Object` view.  `AttachInterface` of the pointer to that component first
releases the reference, which destroys the component, and then casts the pointer: the
operation touches a destroyed component. -/
theorem C16_attach_of_last_reference_touches_destroyed :
    worldX.supportsLifecycle (some 0) = true ∧
    handleA.m_pObj = some 0 ∧ worldX.refcount 0 = 1 ∧
    worldX.touchedDestroyed = false ∧
    (handleA.Unload worldX).2.destroyed 0 = true ∧
    (handleA.AttachInterface worldX (some 0)).2.2.since worldX =
      [Event.release 0, Event.cast 0 Ix_Object] ∧
    (handleA.AttachInterface worldX (some 0)).2.2.touchedDestroyed = true := by
  decide

/-- C16, amended: `Cx_Interface<IF_Type>::AttachInterface(IF_Type* p)` for every handle state
`h` whose lifecycle pointer is null or denotes a live component, and every `p` that is null or
denotes an object with the `Ix_Object` view that is still alive once the prior reference of `h`
is released (the caller hands over a reference it holds).  The calls made are the one `Release`
of the prior lifecycle pointer (if any) followed by the cast of `p` (if non-null); no `AddRef`
is made and no counter changes after the release; no destroyed component is touched; the handle
ends with capability pointer `p` and lifecycle pointer denoting the component of `p` (both null
when `p` is null); the result is true.  The heap is one in which no destroyed component has
been touched before the call. -/
theorem C16_attach_capability_pointer (T : Iface) (w : World) (h : Cx_Interface T) (p : Ptr)
    (hp : w.supportsLifecycle p = true)
    (hclean : w.touchedDestroyed = false)
    (hheld : w.alive h.m_pObj = true)
    (hlive : (h.Unload w).2.alive p = true) :
    (h.AttachInterface w p).1 = true ∧
    (h.AttachInterface w p).2.1 = ⟨p, p⟩ ∧
    (h.AttachInterface w p).2.2.since w = unloadEvents h.m_pObj ++ castEvents p Ix_Object ∧
    (∀ o, Event.addRef o ∉ (h.AttachInterface w p).2.2.since w) ∧
    (h.AttachInterface w p).2.2.refcount = (h.Unload w).2.refcount ∧
    (h.AttachInterface w p).2.2.touchedDestroyed = false := by
  obtain ⟨hi, ho⟩ := h
  cases p with
  | none =>
    cases ho with
    | none =>
      simpa [AttachInterface, Unload, unloadEvents, castEvents, World.since] using hclean
    | some y =>
      have hy : w.destroyed y = false := by simpa [World.alive] using hheld
      simp [AttachInterface, Unload, unloadEvents, castEvents, World.since, World.Release,
        hclean, hy]
  | some s =>
    have hs : w.implements s Ix_Object = true := by simpa [World.supportsLifecycle] using hp
    cases ho with
    | none =>
      have hl : w.destroyed s = false := by simpa [World.alive, Unload] using hlive
      simp [AttachInterface, Unload, unloadEvents, castEvents, World.since, hs, hclean, hl,
        World.dynamic_cast]
    | some y =>
      have hy : w.destroyed y = false := by simpa [World.alive] using hheld
      have hl : ((⟨hi, some y⟩ : Cx_Interface T).Unload w).2.destroyed s = false := by
        simpa [World.alive] using hlive
      simp only [Unload, World.Release] at hl
      by_cases hsy : s = y
      · subst hsy
        simp [hy] at hl
        simp [AttachInterface, Unload, unloadEvents, castEvents, World.since, World.Release,
          hs, hclean, hy, hl, World.dynamic_cast]
      · simp [hsy] at hl
        simp [AttachInterface, Unload, unloadEvents, castEvents, World.since, World.Release,
          hs, hclean, hy, hl, hsy, World.dynamic_cast]

/-- C16, witness: in `worldShared` two references to component 0 are outstanding, one held by
`handleA` and one by the caller, who attaches it. -/
theorem C16_attach_capability_pointer_witness :
    worldShared.supportsLifecycle (some 0) = true ∧
    worldShared.touchedDestroyed = false ∧
    worldShared.alive handleA.m_pObj = true ∧
    (handleA.Unload worldShared).2.alive (some 0) = true ∧
    (handleA.AttachInterface worldShared (some 0)).1 = true ∧
    (handleA.AttachInterface worldShared (some 0)).2.1 = ⟨some 0, some 0⟩ ∧
    (handleA.AttachInterface worldShared (some 0)).2.2.since worldShared =
      unloadEvents handleA.m_pObj ++ castEvents (some 0) Ix_Object ∧
    (∀ o, Event.addRef o ∉ (handleA.AttachInterface worldShared (some 0)).2.2.since worldShared) ∧
    (handleA.AttachInterface worldShared (some 0)).2.2.refcount =
      (handleA.Unload worldShared).2.refcount ∧
    (handleA.AttachInterface worldShared (some 0)).2.2.touchedDestroyed = false :=
  ⟨by decide, by decide, by decide, by decide,
    C16_attach_capability_pointer Alpha worldShared handleA (some 0) (by decide) (by decide)
      (by decide) (by decide)⟩

/-- C17: `Cx_Ptr::Create(clsid)` for every handle state `g` and every outcome of the factory.
The only call made is the one `Release` of the prior pointer (if any); the result is true
exactly when the factory succeeded; the result is true exactly when the handle is non-null
afterwards; on success the handle holds the created component, whose counter is exactly 1,
whatever interfaces it has; on failure the handle is null.  `Cx_Ptr(clsid)` gives the same
handle as `Create` on a default-constructed `Cx_Ptr`. -/
theorem C17_untyped_create (w : World) (g : Cx_Ptr) (clsid : X3CLSID) :
    (g.Create w clsid).2.2.since w = unloadEvents g.m_pInterface ∧
    ((g.Create w clsid).1 = true ↔ (w.x3CreateObject clsid).1.1 = 0) ∧
    (g.Create w clsid).1 = (g.Create w clsid).2.1.IsNotNull ∧
    ((g.Create w clsid).1 = true →
      (g.Create w clsid).2.1 = ⟨some w.next⟩ ∧
      (w.x3CreateObject clsid).1.2 = some w.next ∧
      (g.Create w clsid).2.2.refcount w.next = 1) ∧
    ((g.Create w clsid).1 = false → (g.Create w clsid).2.1 = ⟨none⟩) ∧
    (Cx_Ptr.ctor_clsid w clsid).1 = (Cx_Ptr.ctor_default.Create w clsid).2.1 := by
  obtain ⟨gi⟩ := g
  cases hcl : w.classes clsid <;> cases gi <;>
    simp [Cx_Ptr.Create, Cx_Ptr.Unload, Cx_Ptr.ctor_clsid, Cx_Ptr.ctor_default,
      Cx_Ptr.IsNotNull, World.x3CreateObject, hcl, unloadEvents, World.since, World.Release]

/-- C17, witness: `Create(clsid_X)` on a default-constructed `Cx_Ptr` in `world0` succeeds and
holds component 0 with counter 1. -/
theorem C17_untyped_create_witness :
    (Cx_Ptr.ctor_default.Create world0 clsid_X).1 = true ∧
    (Cx_Ptr.ctor_default.Create world0 clsid_X).2.1 = ⟨some world0.next⟩ ∧
    (world0.x3CreateObject clsid_X).1.2 = some world0.next ∧
    (Cx_Ptr.ctor_default.Create world0 clsid_X).2.2.refcount world0.next = 1 :=
  ⟨by decide, (C17_untyped_create world0 Cx_Ptr.ctor_default clsid_X).2.2.2.1 (by decide)⟩

/-- C18: for `Cx_Interface` handles `h`, `g`, `Cx_Ptr` handles `u`, `v` and a raw pointer `p`:
`h == g` holds exactly when the stored capability pointers are identical, `h == p` exactly
when the stored pointer is `p`, each `operator!=` is the negation of the matching
`operator==`, and the null checks agree: `(h == 0) = IsNull() = operator!() = !IsNotNull() =
!operator bool() = !(h != 0)`; the same for `Cx_Ptr`.  These members are const: they take the
handle only and return a truth value, so no handle and no counter can change. -/
theorem C18_equality_and_null_checks (T : Iface) (h g : Cx_Interface T) (u v : Cx_Ptr)
    (p : Ptr) :
    ((h.eq_handle g = true ↔ h.m_pInterface = g.m_pInterface) ∧
      (h.eq_raw p = true ↔ h.m_pInterface = p) ∧
      h.ne_handle g = !h.eq_handle g ∧
      h.ne_raw p = !h.eq_raw p ∧
      h.ne_null = !h.eq_null ∧
      h.eq_null = h.IsNull ∧
      h.IsNull = h.not ∧
      h.not = !h.IsNotNull ∧
      h.IsNotNull = h.toBool ∧
      h.toBool = h.ne_null ∧
      (h.eq_null = true ↔ h.m_pInterface = none)) ∧
    ((u.eq_handle v = true ↔ u.m_pInterface = v.m_pInterface) ∧
      (u.eq_raw p = true ↔ u.m_pInterface = p) ∧
      u.ne_handle v = !u.eq_handle v ∧
      u.ne_raw p = !u.eq_raw p ∧
      u.ne_null = !u.eq_null ∧
      u.eq_null = u.IsNull ∧
      u.IsNull = u.not ∧
      u.not = !u.IsNotNull ∧
      u.IsNotNull = u.toBool ∧
      u.toBool = u.ne_null ∧
      (u.eq_null = true ↔ u.m_pInterface = none)) := by
  obtain ⟨hi, ho⟩ := h
  obtain ⟨gi, go⟩ := g
  obtain ⟨ui⟩ := u
  obtain ⟨vi⟩ := v
  constructor
  · cases hi <;>
      simp [Cx_Interface.eq_handle, Cx_Interface.eq_raw, Cx_Interface.ne_handle,
        Cx_Interface.ne_raw, Cx_Interface.ne_null, Cx_Interface.eq_null, Cx_Interface.IsNull,
        Cx_Interface.not, Cx_Interface.IsNotNull, Cx_Interface.toBool, bne]
  · cases ui <;>
      simp [Cx_Ptr.eq_handle, Cx_Ptr.eq_raw, Cx_Ptr.ne_handle, Cx_Ptr.ne_raw,
        Cx_Ptr.ne_null, Cx_Ptr.eq_null, Cx_Ptr.IsNull, Cx_Ptr.not, Cx_Ptr.IsNotNull,
        Cx_Ptr.toBool, bne]

/-- C20: for a typed handle `h` whose two pointers denote the component `X` (an object with the
`Ix_Object` view and the interface `IF_Type`), `u = Cx_Ptr(h)` is non-null on `X`, and
`t = Cx_Interface<IF_Type>(u)` is non-null, has the capability pointer of `h` (so `t == h`)
and lifecycle pointer `X`; the counter of `X` has grown by exactly 2, through two `AddRef`
calls, and no other counter changes.  For a null `h` both `u` and `t` are null, no call is
made and no counter changes.  The handle `h` is only read. -/
theorem C20_typed_untyped_typed_round_trip (T : Iface) (w : World) (h : Cx_Interface T)
    (X : ObjId) :
    (h.m_pInterface = some X → h.m_pObj = some X →
      w.implements X Ix_Object = true → w.implements X T = true →
      (Cx_Ptr.ctor_handle w h).1 = ⟨some X⟩ ∧
      (ctor_ptr T (Cx_Ptr.ctor_handle w h).2 (Cx_Ptr.ctor_handle w h).1).1 = h ∧
      (ctor_ptr T (Cx_Ptr.ctor_handle w h).2 (Cx_Ptr.ctor_handle w h).1).1.eq_handle h = true ∧
      (ctor_ptr T (Cx_Ptr.ctor_handle w h).2 (Cx_Ptr.ctor_handle w h).1).2.refcount X =
        w.refcount X + 2 ∧
      (∀ x, x ≠ X →
        (ctor_ptr T (Cx_Ptr.ctor_handle w h).2 (Cx_Ptr.ctor_handle w h).1).2.refcount x =
          w.refcount x) ∧
      (ctor_ptr T (Cx_Ptr.ctor_handle w h).2 (Cx_Ptr.ctor_handle w h).1).2.since w =
        [Event.cast X Ix_Object, Event.addRef X, Event.cast X T, Event.addRef X]) ∧
    (h.IsNull = true →
      (Cx_Ptr.ctor_handle w h).1 = ⟨none⟩ ∧
      (ctor_ptr T (Cx_Ptr.ctor_handle w h).2 (Cx_Ptr.ctor_handle w h).1).1 = ⟨none, none⟩ ∧
      (ctor_ptr T (Cx_Ptr.ctor_handle w h).2 (Cx_Ptr.ctor_handle w h).1).2.refcount =
        w.refcount ∧
      (ctor_ptr T (Cx_Ptr.ctor_handle w h).2 (Cx_Ptr.ctor_handle w h).1).2.since w = []) := by
  obtain ⟨hi, ho⟩ := h
  constructor
  · intro h1 h2 h3 h4
    simp only at h1 h2
    subst h1 h2
    simp [Cx_Ptr.ctor_handle, Cx_Interface.P, ctor_ptr, Cx_Ptr.P, World.dynamic_cast, h3, h4,
      eq_handle, World.AddRef, World.since]
    constructor
    · ring
    · intro x hx
      simp [hx]
  · intro h1
    have h0 : hi = none := by
      cases hi with
      | none => rfl
      | some a => simp [IsNull] at h1
    subst h0
    simp [Cx_Ptr.ctor_handle, Cx_Interface.P, ctor_ptr, Cx_Ptr.P, World.since]

/-- C20, witness: `handleA` on component 0 of `worldX`. -/
theorem C20_typed_untyped_typed_round_trip_witness :
    handleA.m_pInterface = some 0 ∧ handleA.m_pObj = some 0 ∧
    worldX.implements 0 Ix_Object = true ∧ worldX.implements 0 Alpha = true ∧
    (Cx_Ptr.ctor_handle worldX handleA).1 = ⟨some 0⟩ ∧
    (ctor_ptr Alpha (Cx_Ptr.ctor_handle worldX handleA).2
      (Cx_Ptr.ctor_handle worldX handleA).1).1 = handleA ∧
    (ctor_ptr Alpha (Cx_Ptr.ctor_handle worldX handleA).2
      (Cx_Ptr.ctor_handle worldX handleA).1).2.refcount 0 = worldX.refcount 0 + 2 :=
  ⟨rfl, rfl, by decide, by decide,
    ((C20_typed_untyped_typed_round_trip Alpha worldX handleA 0).1 rfl rfl (by decide)
      (by decide)).1,
    ((C20_typed_untyped_typed_round_trip Alpha worldX handleA 0).1 rfl rfl (by decide)
      (by decide)).2.1,
    ((C20_typed_untyped_typed_round_trip Alpha worldX handleA 0).1 rfl rfl (by decide)
      (by decide)).2.2.2.1⟩

/-- C15 (the code departs from the claim): `handleA` holds the only reference to component 0
of `worldX` (counter 1).  The assignment `h = p` with `p` the raw pointer to that same
component first releases the reference, which brings the counter to 0, and then casts the
pointer twice and calls `AddRef` on the same component.  `Cx_Ptr::operator=(IF_Type*)` does
the same. -/
theorem C15_assignment_touches_component_after_release :
    worldX.refcount 0 = 1 ∧
    handleA.P = some 0 ∧
    (handleA.Unload worldX).2.refcount 0 = 0 ∧
    (handleA.assign_raw2 worldX (some 0)).map (fun r => r.2.since worldX) =
      some [Event.release 0, Event.cast 0 Alpha, Event.cast 0 Ix_Object, Event.addRef 0] ∧
    (handleA.assign_raw2 worldX (some 0)).map
        (fun r => touchedAfterRelease 0 (r.2.since worldX)) = some true ∧
    ((⟨some 0⟩ : Cx_Ptr).assign_raw worldX (some 0)).2.since worldX =
      [Event.release 0, Event.cast 0 Ix_Object, Event.addRef 0] ∧
    touchedAfterRelease 0 (((⟨some 0⟩ : Cx_Ptr).assign_raw worldX (some 0)).2.since worldX) =
      true := by
  decide

end XComPtr
